import Mathlib

/-!
# Otter Browser: `TransfersManager`

A shallow embedding of `src/core/TransfersManager.cpp`.

The manager's static members (`m_transfers`, `m_replies`, the update timer) and the
collaborators it talks to (clock, file system, network replies, settings, the
`transfers.ini` history, the MIME database, the dialogs) are gathered in one explicit
state record, `TransfersManager`.  Every member function of the C++ class becomes a
function on that record.

Conventions
* pointers (`TransferInformation*`, `QNetworkReply*`) are natural numbers, `0` is `NULL`;
  `heap` and `network` give the object behind a pointer;
* `qint64` values are integers; the program only adds byte counts, which stay far inside
  the 64 bit range, and signed overflow is undefined in C++, so no wrap-around is modelled;
* a null dereference (`transfer->device->write` with `device == NULL`) makes the
  operation return `none`;
* slots that read `sender()` take the sending reply as their argument;
* `reply->abort()` only marks the reply as finished: the signals Qt emits from inside
  `abort()`, and the slots they would run before the caller goes on, are not modelled;
* modal dialogs answer from a script (`Dialogs`); an exhausted script means the user
  dismisses the dialog (rejected / `No` / `Cancel`).  A modal dialog runs a nested event
  loop: what the callbacks delivered meanwhile do to the state is the parameter `events`.
-/

namespace Otter

/-! ## Qt value types -/

/-- A `QDateTime`: validity flag, Julian day of the date part and milliseconds in the day. -/
structure QDateTime where
  valid : Bool
  julianDay : Int
  msecs : Nat
deriving DecidableEq, Repr

/-- The default constructed, invalid `QDateTime()`. -/
def QDateTime.null : QDateTime := ⟨false, 0, 0⟩

/-- `QDateTime::isValid()`. -/
def QDateTime.isValid (d : QDateTime) : Bool := d.valid

/-- `QDateTime::daysTo(other)`: difference of the date parts, `0` when either is invalid. -/
def QDateTime.daysTo (d other : QDateTime) : Int :=
  if d.valid && other.valid then other.julianDay - d.julianDay else 0

/-- A `QMimeType`, reduced to its name and preferred file name suffix. -/
structure QMimeType where
  name : String
  preferredSuffix : String
deriving DecidableEq, Repr

/-- The invalid `QMimeType()`. -/
def QMimeType.null : QMimeType := ⟨"", ""⟩

/-- A `QVariant` as stored in `QSettings`. -/
inductive QVariant where
  | invalid
  | string (s : String)
  | longLong (n : Int)
  | dateTime (d : QDateTime)
deriving DecidableEq, Repr

/-- `QVariant::toString()`. -/
def QVariant.toString : QVariant → String
  | .string s => s
  | _ => ""

/-- `QVariant::toLongLong()`. -/
def QVariant.toLongLong : QVariant → Int
  | .longLong n => n
  | _ => 0

/-- `QVariant::toDateTime()`. -/
def QVariant.toDateTime : QVariant → QDateTime
  | .dateTime d => d
  | _ => QDateTime.null

/-- `QVariant::isValid()`. -/
def QVariant.isValid : QVariant → Bool
  | .invalid => false
  | _ => true

/-! ## Decimal rendering of integers (`QString::arg(int)`) -/

/-- Decimal digits of `n`, most significant first; `fuel` bounds the number of digits. -/
def decimalDigits : Nat → Nat → List Char
  | 0, _ => []
  | fuel + 1, n =>
    if n < 10 then [Nat.digitChar n]
    else decimalDigits fuel (n / 10) ++ [Nat.digitChar (n % 10)]

/-- `QStringLiteral("%1").arg(n)` for a non-negative `int`: the decimal numeral of `n`. -/
def arg (n : Nat) : String := String.mk (decimalDigits (n + 1) n)

/-- `QString::operator<`: lexicographic comparison of the code units. -/
def codeUnitsLt : List Char → List Char → Bool
  | [], [] => false
  | [], _ :: _ => true
  | _ :: _, [] => false
  | a :: as, b :: bs =>
    if a.toNat < b.toNat then true
    else if b.toNat < a.toNat then false
    else codeUnitsLt as bs

/-- `QString::operator<` on strings. -/
def qstringLt (a b : String) : Bool := codeUnitsLt a.data b.data

/-! ## `QSettings` (the `transfers.ini` history)

Every key this program uses has the form `group/name`, so a key is the pair of its group
and its name.  `QSettings` keeps its keys in a `QMap` ordered by `QString::operator<`;
only `childGroups` observes that order, so the bindings are kept in writing order here
and `childGroups` sorts. -/

/-- The contents of a `QSettings` object: bindings of `group/name` keys. -/
abbrev QSettings := List ((String × String) × QVariant)

/-- `QSettings::clear()`. -/
def QSettings.clear (_ : QSettings) : QSettings := []

/-- `QSettings::setValue(group/name, value)`: replace the binding of the key, or add it. -/
def QSettings.setValue (h : QSettings) (group name : String) (v : QVariant) : QSettings :=
  if h.any (fun b => b.1 = (group, name)) then
    h.map (fun b => if b.1 = (group, name) then ((group, name), v) else b)
  else h ++ [((group, name), v)]

/-- `QSettings::value(group/name)`: the stored value, an invalid `QVariant` when absent. -/
def QSettings.value (h : QSettings) (group name : String) : QVariant :=
  match h.find? (fun b => b.1 = (group, name)) with
  | some b => b.2
  | none => QVariant.invalid

/-- Insert a group name into a list sorted by `QString::operator<`, without duplicates. -/
def insertGroup (g : String) : List String → List String
  | [] => [g]
  | x :: xs =>
    if qstringLt g x then g :: x :: xs
    else if qstringLt x g then x :: insertGroup g xs
    else x :: xs

/-- `QSettings::childGroups()`: the distinct groups, in the key order of the map. -/
def QSettings.childGroups (h : QSettings) : List String :=
  h.foldl (fun acc b => insertGroup b.1.1 acc) []

/-! ## Files and devices -/

/-- An open `QIODevice` (a `QFile` or the `QTemporaryFile` of `startTransfer`). -/
structure QIODevice where
  fileName : String
  isTemporary : Bool
  append : Bool
  pos : Nat
deriving DecidableEq, Repr

/-- The three transfer states.  Modelled from the spec: the `TransferState` enumeration is
declared in `TransfersManager.h`, which is not among the sources; the specification lists
`Running | Finished | Error`. -/
inductive TransferState where
  | RunningTransfer
  | FinishedTransfer
  | ErrorTransfer
deriving DecidableEq, Repr

open TransferState

/-- One transfer record.  Modelled from the spec: the `TransferInformation` structure is
declared in `TransfersManager.h`, which is not among the sources.  The fields are those the
source file reads and writes; the defaults are those of a record that has just been
created (no sink, empty target, invalid timestamps, zero counters, neither private nor
hidden).  `state` and `bytesTotal` are assigned by both creators before they are read. -/
structure TransferInformation where
  device : Option QIODevice := none
  source : String := ""
  target : String := ""
  started : QDateTime := QDateTime.null
  finished : QDateTime := QDateTime.null
  mimeType : QMimeType := QMimeType.null
  speed : Int := 0
  bytesStart : Int := 0
  bytesReceivedDifference : Int := 0
  bytesReceived : Int := 0
  bytesTotal : Int := 0
  state : TransferState := ErrorTransfer
  isPrivate : Bool := false
  isHidden : Bool := false
deriving DecidableEq, Repr

/-- A `QNetworkRequest`: its URL and raw headers (the cache directive and the user agent
header are the same on every request and are left out). -/
structure QNetworkRequest where
  url : String
  rawHeaders : List (String × String)
deriving DecidableEq, Repr

/-- The observable state of a `QNetworkReply`. -/
structure QNetworkReply where
  /-- the request the reply answers -/
  request : QNetworkRequest
  /-- `url().toString(RemovePassword | PreferLocalFile)` -/
  url : String
  /-- `isFinished()` -/
  isFinished : Bool
  /-- the bytes that `readAll()` returns; `size()` is their number -/
  pending : List Nat
  /-- `attribute(HttpStatusCodeAttribute)`, `none` when the attribute is not valid -/
  httpStatusCode : Option Int
  /-- `header(ContentTypeHeader)`, `none` when not valid -/
  contentType : Option String
  /-- `header(ContentLengthHeader).toLongLong()` -/
  contentLength : Int
  /-- `rawHeader("Content-Disposition")`, `none` when the header is absent -/
  contentDisposition : Option String
  /-- whether a `QPointer` to the reply is still non-null -/
  alive : Bool
deriving DecidableEq, Repr

/-- The notifications of the manager; each carries the record pointer. -/
inductive Notification where
  | transferStarted (transfer : Nat)
  | transferFinished (transfer : Nat)
  | transferUpdated (transfer : Nat)
  | transferStopped (transfer : Nat)
  | transferRemoved (transfer : Nat)
deriving DecidableEq, Repr

/-- The script of the user's answers to the modal dialogs. -/
structure Dialogs where
  /-- the answers of `QFileDialog::exec`: the selected file, `none` for rejected -/
  fileDialog : List (Option String)
  /-- the answers of `QMessageBox`: `true` for `Yes` / `Ok`, `false` for `No` / `Cancel` -/
  messageBox : List Bool
deriving DecidableEq, Repr

/-- Run the file dialog: the next scripted answer. -/
def Dialogs.execFileDialog (d : Dialogs) : Option String × Dialogs :=
  match d.fileDialog with
  | [] => (none, d)
  | a :: rest => (a, { d with fileDialog := rest })

/-- Show a message box: the next scripted answer. -/
def Dialogs.askMessageBox (d : Dialogs) : Bool × Dialogs :=
  match d.messageBox with
  | [] => (false, d)
  | a :: rest => (a, { d with messageBox := rest })

/-! ## File names -/

/-- What follows the last `/` of a path (`QUrl::fileName()`, `QFileInfo::fileName()`). -/
def lastSegment (path : List Char) : List Char :=
  path.foldl (fun acc c => if c = '/' then [] else acc ++ [c]) []

/-- What follows the last `.` of a name, `none` when the name has no `.`. -/
def afterLastDot (name : List Char) : Option (List Char) :=
  name.foldl (fun acc c => if c = '.' then some [] else acc.map (fun l => l ++ [c])) none

/-- `QFileInfo(name).suffix()`. -/
def suffix (name : String) : String :=
  String.mk ((afterLastDot (lastSegment name.data)).getD [])

/-- Skip a literal at the head of a text: the rest of the text, `none` when the text does
not start with the literal. -/
def skipLiteral : List Char → List Char → Option (List Char)
  | [], text => some text
  | _ :: _, [] => none
  | l :: ls, c :: cs => if l = c then skipLiteral ls cs else none

/-- The first capture of the regular expression ` filename="?([^"]+)"?` in a text: at the
leftmost place where ` filename=` is followed, after an optional quote, by at least one
character other than a quote, the longest run of such characters; empty without a match. -/
def capturedFileName : List Char → List Char
  | [] => []
  | c :: cs =>
    match skipLiteral " filename=".data (c :: cs) with
    | some rest =>
      let unquoted := match rest with
        | '"' :: r => r
        | r => r
      let captured := unquoted.takeWhile (fun x => x ≠ '"')
      if captured ≠ [] then captured else capturedFileName cs
    | none => capturedFileName cs

/-! ## `QHash<QNetworkReply*, TransferInformation*>` -/

/-- The reply to record map, as an association list with distinct keys. -/
abbrev ReplyHash := List (Nat × Nat)

/-- `QHash::contains(key)`. -/
def ReplyHash.contains (h : ReplyHash) (reply : Nat) : Bool := h.any (fun b => b.1 = reply)

/-- `QHash::value(key)` / `operator[]` for reading: the null pointer when absent. -/
def ReplyHash.value (h : ReplyHash) (reply : Nat) : Nat :=
  match h.find? (fun b => b.1 = reply) with
  | some b => b.2
  | none => 0

/-- `QHash::remove(key)`. -/
def ReplyHash.remove (h : ReplyHash) (reply : Nat) : ReplyHash := h.filter (fun b => b.1 ≠ reply)

/-- The assignment `hash[key] = value`. -/
def ReplyHash.insert (h : ReplyHash) (reply transfer : Nat) : ReplyHash :=
  (reply, transfer) :: h.filter (fun b => b.1 ≠ reply)

/-- `QHash::key(value)`: a key mapped to the value, the null pointer when there is none. -/
def ReplyHash.key (h : ReplyHash) (transfer : Nat) : Nat :=
  match h.find? (fun b => b.2 = transfer) with
  | some b => b.1
  | none => 0

/-! ## The state -/

/-- The values of `SettingsManager` the manager reads (and `Paths/SaveFile`, which it writes). -/
structure Settings where
  privateMode : Bool
  rememberDownloads : Bool
  downloadsLimitPeriod : Int
  alwaysAskWhereToSaveDownload : Bool
  pathsDownloads : String
  pathsSaveFile : String
deriving DecidableEq, Repr

/-- The static members of `TransfersManager` together with the state of its collaborators. -/
structure TransfersManager where
  /-- `m_transfers`: the active set, as record pointers in insertion order -/
  m_transfers : List Nat
  /-- `m_replies`: network operation to record -/
  m_replies : ReplyHash
  /-- `m_updateTimer`: `0` when the ticker is stopped -/
  m_updateTimer : Nat
  /-- the record behind each `TransferInformation*` -/
  heap : Nat → TransferInformation
  /-- the reply behind each `QNetworkReply*` -/
  network : Nat → QNetworkReply
  /-- file system: the contents of each existing file -/
  files : String → Option (List Nat)
  /-- whether `QFile::open` succeeds on a path (for writing) -/
  canOpen : String → Bool
  /-- `QFileInfo(path).isWritable()` -/
  isWritable : String → Bool
  /-- `QFileInfo(path).dir().path()` -/
  dirPath : String → String
  /-- the canonical form of an existing path -/
  canonical : String → String
  /-- `QDir::toNativeSeparators` -/
  toNativeSeparators : String → String
  /-- `QMimeDatabase().mimeTypeForName` -/
  mimeTypeForName : String → QMimeType
  /-- `QMimeDatabase().mimeTypeForData` -/
  mimeTypeForData : List Nat → QMimeType
  /-- `QMimeDatabase().mimeTypeForFile`, given the path and the file contents -/
  mimeTypeForFile : String → Option (List Nat) → QMimeType
  /-- `transfers.ini` -/
  history : QSettings
  /-- `SettingsManager` -/
  settings : Settings
  /-- `QDateTime::currentDateTime()` -/
  now : QDateTime
  /-- the notifications emitted so far, oldest first -/
  emitted : List Notification
  /-- the address the next `new TransferInformation()` returns -/
  nextTransfer : Nat
  /-- `QDir::separator()` -/
  separator : String
  /-- `QUrl(text).path()`: the path component of a URL -/
  urlPath : String → String

namespace TransfersManager

/-- Write through a record pointer: `transfer->field = ...`. -/
def modify (w : TransfersManager) (transfer : Nat)
    (f : TransferInformation → TransferInformation) : TransfersManager :=
  { w with heap := Function.update w.heap transfer (f (w.heap transfer)) }

/-- Change the state of a reply. -/
def modifyReply (w : TransfersManager) (reply : Nat)
    (f : QNetworkReply → QNetworkReply) : TransfersManager :=
  { w with network := Function.update w.network reply (f (w.network reply)) }

/-- The pattern `if (!transfer->isHidden) { emit ...; emit ...; }`. -/
def notify (w : TransfersManager) (transfer : Nat) (ns : List Notification) : TransfersManager :=
  if ¬ (w.heap transfer).isHidden then { w with emitted := w.emitted ++ ns } else w

/-- Remove a file (`QFile::remove`, the destructor of a `QTemporaryFile`). -/
def removeFile (w : TransfersManager) (path : String) : TransfersManager :=
  { w with files := Function.update w.files path none }

/-- `QFile::exists(path)`. -/
def fileExists (w : TransfersManager) (path : String) : Bool := (w.files path).isSome

/-- `device->size()`: the size of the file behind the device. -/
def deviceSize (w : TransfersManager) (d : QIODevice) : Nat := ((w.files d.fileName).getD []).length

/-- `transfer->device->write(data)` for a non-null device `d`: in append mode the data goes
to the end of the file, otherwise it overwrites from the current position. -/
def write (w : TransfersManager) (transfer : Nat) (d : QIODevice) (data : List Nat) :
    TransfersManager :=
  let content := (w.files d.fileName).getD []
  let content1 :=
    if d.append then content ++ data
    else content.take d.pos ++ data ++ content.drop (d.pos + data.length)
  let pos1 := if d.append then content.length + data.length else d.pos + data.length
  { w with
    files := Function.update w.files d.fileName (some content1)
    heap := Function.update w.heap transfer
      { w.heap transfer with device := some { d with pos := pos1 } } }

/-- `reply->readAll()`: the pending bytes, which are consumed. -/
def readAll (w : TransfersManager) (reply : Nat) : List Nat × TransfersManager :=
  ((w.network reply).pending, w.modifyReply reply (fun r => { r with pending := [] }))

/-! ## Queries -/

/-- `TransfersManager::isDownloading(source, target)`; the loop over `m_transfers` is the
recursion over the list of record pointers. -/
def isDownloadingLoop (heap : Nat → TransferInformation) (source target : String) :
    List Nat → Bool
  | [] => false
  | p :: rest =>
    if (heap p).state ≠ RunningTransfer then isDownloadingLoop heap source target rest
    else if source.isEmpty ∧ (heap p).target = target then true
    else if target.isEmpty ∧ (heap p).source = source then true
    else if ¬ source.isEmpty ∧ ¬ target.isEmpty ∧ (heap p).source = source
        ∧ (heap p).target = target then true
    else isDownloadingLoop heap source target rest

/-- `TransfersManager::isDownloading`. -/
def isDownloading (w : TransfersManager) (source target : String) : Bool :=
  if source.isEmpty ∧ target.isEmpty then false
  else isDownloadingLoop w.heap source target w.m_transfers

/-- `TransfersManager::getTransfers`. -/
def getTransfers (w : TransfersManager) : List Nat := w.m_transfers

/-! ## Stopping and the network callbacks -/

/-- `TransfersManager::startUpdates`; `startTimer(500)` is taken to return the timer id `1`. -/
def startUpdates (w : TransfersManager) : TransfersManager :=
  if w.m_updateTimer = 0 then { w with m_updateTimer := 1 } else w

/-- `TransfersManager::stopTransfer(transfer)`.  The C++ function always returns `true`;
the resulting state is returned here. -/
def stopTransfer (w : TransfersManager) (transfer : Nat) : TransfersManager :=
  let reply := w.m_replies.key transfer
  let w1 :=
    if reply ≠ 0 then
      -- reply->abort(); the deferred deleteLater is not modelled
      { w.modifyReply reply (fun r => { r with isFinished := true }) with
        m_replies := w.m_replies.remove reply }
    else w
  let w2 :=
    if ((w1.heap transfer).device).isSome then
      w1.modify transfer (fun t => { t with device := none })
    else w1
  let w3 := w2.modify transfer (fun t => { t with state := ErrorTransfer, finished := w2.now })
  w3.notify transfer [.transferStopped transfer, .transferUpdated transfer]

/-- `TransfersManager::downloadProgress(bytesReceived, bytesTotal)`, sent by `reply`. -/
def downloadProgress (w : TransfersManager) (reply : Nat) (bytesReceived bytesTotal : Int) :
    TransfersManager :=
  if reply = 0 ∨ ¬ w.m_replies.contains reply then w
  else
    let transfer := w.m_replies.value reply
    let w1 := w.modify transfer (fun t => { t with
      bytesReceivedDifference :=
        t.bytesReceivedDifference + (bytesReceived - (t.bytesReceived - t.bytesStart)) })
    let w2 := w1.modify transfer (fun t => { t with bytesReceived := t.bytesStart + bytesReceived })
    w2.modify transfer (fun t => { t with bytesTotal := t.bytesStart + bytesTotal })

/-- Lines 149 to 157 of `downloadData`: a record in state `Error` becomes `Running`, and
its sink is reset when the response has a status code other than 206; `none` is a null
dereference of the sink. -/
def downloadDataResume (w : TransfersManager) (reply transfer : Nat) : Option TransfersManager :=
  if (w.heap transfer).state = ErrorTransfer then
    let w1 := w.modify transfer (fun t => { t with state := RunningTransfer })
    if ((w1.network reply).httpStatusCode).isSome
        ∧ (w1.network reply).httpStatusCode ≠ some 206 then
      -- transfer->device->reset()
      match (w1.heap transfer).device with
      | none => none
      | some d => some (w1.modify transfer (fun t => { t with device := some { d with pos := 0 } }))
    else some w1
  else some w

/-- Line 159 of `downloadData`: `transfer->device->write(reply->readAll())`; `none` is a
null dereference of the sink. -/
def downloadDataWrite (w : TransfersManager) (reply transfer : Nat) : Option TransfersManager :=
  match (w.heap transfer).device with
  | none => none
  | some d => some ((w.readAll reply).2.write transfer d (w.readAll reply).1)

/-- `TransfersManager::downloadData(reply)`; `none` is a null dereference of the sink. -/
def downloadData (w : TransfersManager) (reply : Nat) : Option TransfersManager :=
  if reply = 0 ∨ ¬ w.m_replies.contains reply then some w
  else
    let transfer := w.m_replies.value reply
    match w.downloadDataResume reply transfer with
    | none => none
    | some w1 => w1.downloadDataWrite reply transfer

/-- The completion rule shared by `downloadFinished` (lines 189 to 201) and the end of
`startTransfer` (lines 510 to 522), on the record: an unknown total becomes what was
received, an empty or short transfer is an error, otherwise the MIME type is taken from
the target file (`fromFile`). -/
def finalizeRecord (fromFile : QMimeType) (t : TransferInformation) : TransferInformation :=
  let t1 := if t.bytesTotal ≤ 0 ∧ t.bytesReceived > 0 then { t with bytesTotal := t.bytesReceived } else t
  if t1.bytesReceived = 0 ∨ t1.bytesReceived < t1.bytesTotal then { t1 with state := ErrorTransfer }
  else { t1 with mimeType := fromFile }

/-- The completion rule applied through the record pointer. -/
def finalizeCounters (w : TransfersManager) (transfer : Nat) : TransfersManager :=
  w.modify transfer (fun t =>
    finalizeRecord (w.mimeTypeForFile t.target (w.files t.target)) t)

/-- Lines 176 to 179 of `downloadFinished`: flush the unread bytes to the sink; `none` is
a null dereference of the sink. -/
def downloadFinishedFlush (w : TransfersManager) (reply transfer : Nat) :
    Option TransfersManager :=
  if ((w.network reply).pending).length > 0 then
    match (w.heap transfer).device with
    | none => none
    | some d => some ((w.readAll reply).2.write transfer d (w.readAll reply).1)
  else some w

/-- Lines 181 to 218 of `downloadFinished`: fix the final state of the record and release
the sink and the operation.  The three `disconnect` calls and the deferred `deleteLater`
calls have no effect on the modelled state. -/
def downloadFinishedComplete (w : TransfersManager) (reply transfer : Nat) : TransfersManager :=
  let w2 := w.modify transfer (fun t => { t with state := FinishedTransfer })
  let w3 := w2.modify transfer (fun t => { t with finished := w2.now })
  let w4 := w3.modify transfer (fun t => { t with
    bytesReceived :=
      match t.device with
      | some d => (w3.deviceSize d : Int)
      | none => -1 })
  let w5 := w4.finalizeCounters transfer
  let w6 := w5.notify transfer [.transferFinished transfer, .transferUpdated transfer]
  match (w6.heap transfer).device with
  | some d =>
    if ¬ d.isTemporary then
      { w6.modify transfer (fun t => { t with device := none }) with
        m_replies := w6.m_replies.remove reply }
    else w6
  | none => w6

/-- `TransfersManager::downloadFinished(reply)`; `none` is a null dereference of the sink. -/
def downloadFinished (w : TransfersManager) (reply : Nat) : Option TransfersManager :=
  if reply = 0 ∨ ¬ w.m_replies.contains reply then some w
  else
    let transfer := w.m_replies.value reply
    match w.downloadFinishedFlush reply transfer with
    | none => none
    | some w1 => some (w1.downloadFinishedComplete reply transfer)

/-- `TransfersManager::downloadError(error)`, sent by `reply`; the error code is unused. -/
def downloadError (w : TransfersManager) (reply : Nat) (_error : Nat) : TransfersManager :=
  if reply = 0 ∨ ¬ w.m_replies.contains reply then w
  else
    let transfer := w.m_replies.value reply
    let w1 := w.stopTransfer transfer
    w1.modify transfer (fun t => { t with state := ErrorTransfer })

/-! ## Persistence -/

/-- The loop of `TransfersManager::save` over `m_transfers`, with the counter `entry`. -/
def saveLoop (w : TransfersManager) (limit : Int) : List Nat → Nat → QSettings → QSettings
  | [], _, h => h
  | p :: rest, entry, h =>
    let t := w.heap p
    if t.isPrivate ∨ t.isHidden
        ∨ (t.state = FinishedTransfer ∧ t.finished.isValid ∧ t.finished.daysTo w.now > limit) then
      saveLoop w limit rest entry h
    else
      let h1 := h.setValue (arg entry) "source" (.string t.source)
      let h2 := h1.setValue (arg entry) "target" (.string t.target)
      let h3 := h2.setValue (arg entry) "started" (.dateTime t.started)
      let h4 := h3.setValue (arg entry) "finished"
        (.dateTime (if t.finished.isValid ∧ t.state ≠ RunningTransfer then t.finished else w.now))
      let h5 := h4.setValue (arg entry) "bytesTotal" (.longLong t.bytesTotal)
      let h6 := h5.setValue (arg entry) "bytesReceived" (.longLong t.bytesReceived)
      saveLoop w limit rest (entry + 1) h6

/-- `TransfersManager::save`. -/
def save (w : TransfersManager) : TransfersManager :=
  let w1 := { w with history := w.history.clear }
  if w1.settings.privateMode ∨ ¬ w1.settings.rememberDownloads then w1
  else
    let limit := w1.settings.downloadsLimitPeriod
    { w1 with history := saveLoop w1 limit w1.m_transfers 1 w1.history }

/-- The body of the loop of the constructor: the record read from one history group. -/
def loadEntry (w : TransfersManager) (group : String) : TransferInformation :=
  let source := (w.history.value group "source").toString
  let target := (w.history.value group "target").toString
  let bytesTotal := (w.history.value group "bytesTotal").toLongLong
  let bytesReceived := (w.history.value group "bytesReceived").toLongLong
  { source := source
    target := target
    started := (w.history.value group "started").toDateTime
    finished := (w.history.value group "finished").toDateTime
    mimeType := w.mimeTypeForFile target (w.files target)
    bytesTotal := bytesTotal
    bytesReceived := bytesReceived
    state := if bytesReceived > 0 ∧ bytesTotal = bytesReceived then FinishedTransfer
             else ErrorTransfer }

/-- The loop of the constructor over `history.childGroups()`. -/
def constructLoop (w : TransfersManager) : List String → TransfersManager
  | [] => w
  | group :: rest =>
    let transfer := w.nextTransfer
    constructLoop
      { w with
        nextTransfer := transfer + 1
        heap := Function.update w.heap transfer (w.loadEntry group)
        m_transfers := w.m_transfers ++ [transfer] } rest

/-- `TransfersManager::TransfersManager(parent)`: the constructor, run on the state of a
process that has just started (the timer member is initialised to `0`). -/
def construct (w : TransfersManager) : TransfersManager :=
  constructLoop { w with m_updateTimer := 0 } w.history.childGroups

/-- The state of a newly started process over the same environment: the static members
`m_transfers` and `m_replies` are empty. -/
def newProcess (w : TransfersManager) : TransfersManager :=
  { w with m_transfers := [], m_replies := [], m_updateTimer := 0 }

/-! ## Removing, restarting and resuming -/

/-- `TransfersManager::removeTransfer(transfer, keepFile)`. -/
def removeTransfer (w : TransfersManager) (transfer : Nat) (keepFile : Bool) :
    Bool × TransfersManager :=
  if transfer = 0 ∨ ¬ w.m_transfers.contains transfer then (false, w)
  else
    let w1 := w.stopTransfer transfer
    let target := (w1.heap transfer).target
    let w2 :=
      if ¬ keepFile ∧ ¬ target.isEmpty ∧ w1.fileExists target then w1.removeFile target
      else w1
    let w3 := { w2 with m_transfers := w2.m_transfers.filter (fun p => p ≠ transfer) }
    let w4 := w3.notify transfer [.transferRemoved transfer]
    -- delete transfer: the record stays in the heap, nothing refers to it any more
    (true, w4)

/-- `m_networkManager->get(request)`: the transport hands out the handle `reply`, whose
state at that moment is `issued`. -/
def get (w : TransfersManager) (request : QNetworkRequest) (reply : Nat)
    (issued : QNetworkReply) : TransfersManager :=
  { w with network := Function.update w.network reply { issued with request := request } }

/-- `TransfersManager::restartTransfer(transfer)`.  `reply` and `issued` are the handle
and the reply state that `m_networkManager->get` returns. -/
def restartTransfer (w : TransfersManager) (transfer : Nat) (reply : Nat)
    (issued : QNetworkReply) : Option (Bool × TransfersManager) :=
  if transfer = 0 ∨ ¬ w.m_transfers.contains transfer then some (false, w)
  else
    let w1 := w.stopTransfer transfer
    let target := (w1.heap transfer).target
    -- QFile::open(WriteOnly) truncates the file
    if ¬ w1.canOpen target then some (false, w1)
    else
      let w2 := { w1 with files := Function.update w1.files target (some []) }
      let file : QIODevice := { fileName := target, isTemporary := false, append := false, pos := 0 }
      let w3 := w2.modify transfer (fun t => { t with
        device := some file, started := w2.now, bytesStart := 0 })
      let request : QNetworkRequest := { url := (w3.heap transfer).source, rawHeaders := [] }
      let w4 := w3.get request reply issued
      let w5 := { w4 with m_replies := w4.m_replies.insert reply transfer }
      match w5.downloadData reply with
      | none => none
      | some w6 => some (true, w6.startUpdates)

/-- `TransfersManager::resumeTransfer(transfer)`.  `reply` and `issued` are the handle
and the reply state that `m_networkManager->get` returns. -/
def resumeTransfer (w : TransfersManager) (transfer : Nat) (reply : Nat)
    (issued : QNetworkReply) : Option (Bool × TransfersManager) :=
  if ¬ w.m_transfers.contains transfer ∨ w.m_replies.key transfer ≠ 0
      ∨ (w.heap transfer).state ≠ ErrorTransfer
      ∨ ¬ w.fileExists (w.heap transfer).target then some (false, w)
  else if (w.heap transfer).bytesTotal = 0 then w.restartTransfer transfer reply issued
  else
    let target := (w.heap transfer).target
    -- QFile::open(WriteOnly | Append) keeps the contents
    if ¬ w.canOpen target then some (false, w)
    else
      let size := ((w.files target).getD []).length
      let file : QIODevice := { fileName := target, isTemporary := false, append := true, pos := size }
      let w1 := w.modify transfer (fun t => { t with
        device := some file, started := w.now, bytesStart := (size : Int) })
      let request : QNetworkRequest :=
        { url := (w1.heap transfer).source
          rawHeaders := [("Range", "bytes=" ++ arg size ++ "-")] }
      let w2 := w1.get request reply issued
      let w3 := { w2 with m_replies := w2.m_replies.insert reply transfer }
      match w3.downloadData reply with
      | none => none
      | some w4 => some (true, w4.startUpdates)

/-! ## Starting a transfer -/

/-- `QUrl(text).fileName()`. -/
def urlFileName (w : TransfersManager) (text : String) : String :=
  String.mk (lastSegment (w.urlPath text).data)

/-- `QFileInfo(path).canonicalFilePath()`: empty when the file does not exist. -/
def canonicalFilePath (w : TransfersManager) (path : String) : String :=
  if w.fileExists path then w.canonical path else ""

/-- The loop of `TransfersManager::getSavePath`; one unit of fuel per iteration.  The
result is the state, the rest of the dialog script and the value of `path` at the `break`. -/
def getSavePathLoop (events : TransfersManager → TransfersManager) (_fileName : String) :
    Nat → TransfersManager → Dialogs → String → Option (TransfersManager × Dialogs × String)
  | 0, _, _, _ => none
  | fuel + 1, w, d, path =>
    let (selected, w1, d1) :=
      if path.isEmpty then ((d.execFileDialog).1, events w, (d.execFileDialog).2)
      else (some path, w, d)
    match selected with
    | none => some (w1, d1, path)
    | some path1 =>
      let exist := w1.fileExists path1
      if w1.isDownloading "" path1 then
        let (ok, d2) := d1.askMessageBox
        if ¬ ok then some (events w1, d2, "")
        else getSavePathLoop events _fileName fuel (events w1) d2 ""
      else if (exist ∧ ¬ w1.isWritable path1)
          ∨ (¬ exist ∧ ¬ w1.isWritable (w1.dirPath path1)) then
        let (ok, d2) := d1.askMessageBox
        if ¬ ok then some (events w1, d2, "")
        else getSavePathLoop events _fileName fuel (events w1) d2 ""
      else some (w1, d1, path1)

/-- `TransfersManager::getSavePath(fileName, path)`.  The loop asks the file dialog in
every iteration but possibly the first, so the length of the script bounds it. -/
def getSavePath (events : TransfersManager → TransfersManager) (w : TransfersManager)
    (d : Dialogs) (fileName path : String) : Option (TransfersManager × Dialogs × String) :=
  match getSavePathLoop events fileName (d.fileDialog.length + 2) w d path with
  | none => none
  | some (w1, d1, path1) =>
    if ¬ path1.isEmpty then
      some ({ w1 with settings :=
                { w1.settings with pathsSaveFile := w1.canonical (w1.dirPath path1) } },
            d1, path1)
    else some (w1, d1, path1)

/-- Lines 373 to 408 of `startTransfer`: the file name suggested for a transfer without an
explicit target. -/
def suggestedFileName (w : TransfersManager) (transfer reply : Nat) : String :=
  let fromHeader :=
    match (w.network reply).contentDisposition with
    | some header => w.urlFileName (String.mk (capturedFileName header.data))
    | none => ""
  let fromUrl := if fromHeader.isEmpty then w.urlFileName (w.heap transfer).source else fromHeader
  let fileName := if fromUrl.isEmpty then "file" else fromUrl
  if (suffix fileName).isEmpty then
    let suffix1 :=
      if ((w.network reply).contentType).isSome then (w.heap transfer).mimeType.preferredSuffix
      else ""
    if ¬ suffix1.isEmpty then fileName ++ "." ++ suffix1 else fileName
  else fileName

/-- Lines 311 to 368 of `startTransfer`: create the record, open the scratch file and
stream what has arrived into it.  The result is `none` for a null dereference, otherwise
whether the scratch file could be opened (`false`: the function returns `NULL`), the
record pointer and the state. -/
def startTransferBegin (w : TransfersManager) (reply : Nat)
    (privateTransfer skipTransfers : Bool) (temporaryName : String) :
    Option (Bool × Nat × TransfersManager) :=
  let transfer := w.nextTransfer
  let temporaryFile : QIODevice :=
    { fileName := temporaryName, isTemporary := true, append := false, pos := 0 }
  let w1 := { w with
    nextTransfer := transfer + 1
    heap := Function.update w.heap transfer
      { source := (w.network reply).url
        device := some temporaryFile
        started := w.now
        mimeType := w.mimeTypeForName (((w.network reply).contentType).getD "")
        bytesTotal := (w.network reply).contentLength
        isPrivate := privateTransfer
        isHidden := skipTransfers } }
  if ¬ w1.canOpen temporaryName then some (false, transfer, w1)
  else
    let w2 := { w1 with files := Function.update w1.files temporaryName (some []) }
    let w3 := w2.modify transfer (fun t => { t with
      state := if (w2.network reply).isFinished then FinishedTransfer else RunningTransfer })
    match w3.downloadData reply with
    | none => none
    | some w4 =>
      let w5 := { w4 with m_transfers := w4.m_transfers ++ [transfer] }
      let isRunning : Bool := (w5.heap transfer).state = RunningTransfer
      let w6 :=
        if isRunning then { w5 with m_replies := w5.m_replies.insert reply transfer }
        else w5.modify transfer (fun t => { t with finished := w5.now })
      match (w6.heap transfer).device with
      | none => none
      | some dev =>
        -- device->reset(); mimeTypeForData(device); device->seek(device->size())
        let w7 := w6.modify transfer (fun t => { t with
          mimeType := w6.mimeTypeForData ((w6.files dev.fileName).getD [])
          device := some { dev with pos := w6.deviceSize dev } })
        match w7.downloadData reply with
        | none => none
        | some w8 => some (true, transfer, w8)

/-- Lines 410 to 425 of `startTransfer`: the path tried first.  Without the quick mode and
with `Browser/AlwaysAskWhereToSaveDownload` set it is empty; otherwise it is the file name
in the downloads directory, unless that file exists and the user declines to overwrite it. -/
def quickPath (events : TransfersManager → TransfersManager) (w : TransfersManager)
    (d : Dialogs) (fileName : String) (quickTransfer : Bool) :
    String × TransfersManager × Dialogs :=
  let quickTransfer1 : Bool :=
    if ¬ quickTransfer ∧ ¬ w.settings.alwaysAskWhereToSaveDownload then true else quickTransfer
  if quickTransfer1 then
    let path := w.settings.pathsDownloads ++ w.separator ++ fileName
    if w.fileExists path then
      if ¬ (d.askMessageBox).1 then ("", events w, (d.askMessageBox).2)
      else (path, events w, (d.askMessageBox).2)
    else (path, w, d)
  else ("", w, d)

/-- Lines 370 to 450 of `startTransfer`: fix `transfer->target`.  The result is `none`
for a null dereference, otherwise whether the function goes on (`false`: it has removed
the record and returns `NULL`), the state and the rest of the dialog script. -/
def startTransferTarget (events : TransfersManager → TransfersManager)
    (w : TransfersManager) (d : Dialogs) (transfer reply : Nat) (target : String)
    (quickTransfer : Bool) : Option (Bool × TransfersManager × Dialogs) :=
  if target.isEmpty then
    let fileName := w.suggestedFileName transfer reply
    let quick := quickPath events w d fileName quickTransfer
    match getSavePath events quick.2.1 quick.2.2 fileName quick.1 with
    | none => none
    | some (w2, d2, path2) =>
      if path2.isEmpty then
        let w3 := w2.modify transfer (fun t => { t with device := none })
        let w4 := { w3 with m_replies := w3.m_replies.remove reply }
        let w5 := (w4.removeTransfer transfer false).2
        let w6 :=
          if (w5.network reply).alive then
            w5.modifyReply reply (fun r => { r with isFinished := true })
          else w5
        some (false, w6, d2)
      else
        some (true, w2.modify transfer (fun t => { t with
          target := w2.toNativeSeparators path2 }), d2)
  else
    some (true, w.modify transfer (fun t => { t with
      target := w.canonicalFilePath (w.toNativeSeparators target) }), d)

/-- Lines 452 to 546 of `startTransfer`: open the destination, move the scratch bytes
there and finish or go on streaming.  The result is the returned record pointer (`0` for
`NULL`), the state and the rest of the dialog script. -/
def startTransferComplete (events : TransfersManager → TransfersManager)
    (w : TransfersManager) (d : Dialogs) (transfer reply : Nat) (target : String)
    (temporaryName : String) : Option (Nat × TransfersManager × Dialogs) :=
  let asked : Bool := ¬ target.isEmpty ∧ w.fileExists (w.heap transfer).target
  let (cancelled, w1, d1) :=
    if asked then (! (d.askMessageBox).1, events w, (d.askMessageBox).2) else (false, w, d)
  if cancelled then some (0, (w1.removeTransfer transfer false).2, d1)
  else
    let path := (w1.heap transfer).target
    if ¬ w1.canOpen path then some (0, (w1.removeTransfer transfer false).2, d1)
    else
      let w2 := { w1 with files := Function.update w1.files path (some []) }
      let file : QIODevice := { fileName := path, isTemporary := false, append := false, pos := 0 }
      let w3 :=
        if w2.m_replies.contains reply then
          if (w2.heap transfer).state = RunningTransfer ∧ (w2.network reply).alive then w2
          else { w2 with m_replies := w2.m_replies.remove reply }
        else w2
      -- temporaryFile.reset(); file->write(temporaryFile.readAll()); transfer->device = file
      let scratch := (w3.files temporaryName).getD []
      let w4 := w3.write transfer file scratch
      let streamed : Option TransfersManager :=
        if w4.m_replies.contains reply ∧ (w4.network reply).alive then
          if (w4.network reply).isFinished then
            match w4.downloadFinished reply with
            | none => none
            | some w5 => some (w5.modify transfer (fun t => { t with device := none }))
          else w4.downloadData reply
        else some (w4.modify transfer (fun t => { t with device := none }))
      match streamed with
      | none => none
      | some w6 =>
        -- temporaryFile.close()
        let w7 := w6
        let w8 :=
          if (w7.heap transfer).state = FinishedTransfer then w7.finalizeCounters transfer
          else w7
        let w9 := w8.notify transfer [.transferStarted transfer]
        if w9.m_replies.contains reply ∧ (w9.network reply).alive then
          some (transfer, w9.startUpdates, d1)
        else
          -- file->close(); file->deleteLater()
          some (transfer, w9.notify transfer [.transferFinished transfer], d1)

/-- `TransfersManager::startTransfer(reply, target, privateTransfer, quickTransfer,
skipTransfers)`.  `temporaryName` is the name the `QTemporaryFile` gets; the scratch file
is removed when the function returns, by the destructor of the `QTemporaryFile`.  The
result is the returned record pointer (`0` for `NULL`), the state and the rest of the
dialog script. -/
def startTransfer (events : TransfersManager → TransfersManager) (w : TransfersManager)
    (d : Dialogs) (reply : Nat) (target : String)
    (privateTransfer quickTransfer skipTransfers : Bool) (temporaryName : String) :
    Option (Nat × TransfersManager × Dialogs) :=
  if reply = 0 then some (0, w, d)
  else
    match w.startTransferBegin reply privateTransfer skipTransfers temporaryName with
    | none => none
    | some (opened, transfer, w1) =>
      if ¬ opened then some (0, w1, d)
      else
        match startTransferTarget events w1 d transfer reply target quickTransfer with
        | none => none
        | some (proceed, w2, d2) =>
          if ¬ proceed then some (0, w2.removeFile temporaryName, d2)
          else
            match startTransferComplete events w2 d2 transfer reply target temporaryName with
            | none => none
            | some (result, w3, d3) => some (result, w3.removeFile temporaryName, d3)

end TransfersManager

end Otter

namespace Otter

open TransferState TransfersManager

/-! ## Concrete states -/

/-- A state with no transfers, an empty file system and trivial collaborators. -/
def emptyState : TransfersManager where
  m_transfers := []
  m_replies := []
  m_updateTimer := 0
  heap := fun _ => {}
  network := fun _ =>
    { request := { url := "", rawHeaders := [] }, url := "", isFinished := false, pending := [],
      httpStatusCode := none, contentType := none, contentLength := 0,
      contentDisposition := none, alive := true }
  files := fun _ => none
  canOpen := fun _ => true
  isWritable := fun _ => true
  dirPath := fun p => p
  canonical := fun p => p
  toNativeSeparators := fun p => p
  mimeTypeForName := fun _ => QMimeType.null
  mimeTypeForData := fun _ => QMimeType.null
  mimeTypeForFile := fun _ _ => QMimeType.null
  history := []
  settings :=
    { privateMode := false, rememberDownloads := true, downloadsLimitPeriod := 7,
      alwaysAskWhereToSaveDownload := true, pathsDownloads := "/home/u/Downloads",
      pathsSaveFile := "/home/u" }
  now := ⟨true, 2457000, 0⟩
  emitted := []
  nextTransfer := 1
  separator := "/"
  urlPath := fun u => u

/-- A running transfer (record `1`, operation `7`) whose sink `/d/a` holds three bytes
while the announced length is two. -/
def overlongState : TransfersManager :=
  { emptyState with
    m_transfers := [1]
    m_replies := [(7, 1)]
    nextTransfer := 2
    files := fun p => if p = "/d/a" then some [10, 20, 30] else none
    heap := fun p =>
      if p = 1 then
        { source := "http://h/a", target := "/d/a", state := RunningTransfer, bytesTotal := 2,
          bytesReceived := 2,
          device := some { fileName := "/d/a", isTemporary := false, append := false, pos := 3 } }
      else {} }

/-- A second transfer being started while the first is running: record `1` (operation `7`)
is `Running` with target `/d/a`; record `2` (operation `8`) has just been created by
`startTransfer` and streams into its scratch file, its target is still empty. -/
def secondStartState : TransfersManager :=
  { emptyState with
    m_transfers := [1, 2]
    m_replies := [(7, 1), (8, 2)]
    nextTransfer := 3
    files := fun p =>
      if p = "/d/a" then some [10, 20, 30]
      else if p = "/tmp/otter-download-1.dat" then some [1, 2]
      else none
    heap := fun p =>
      if p = 1 then
        { source := "http://h/a", target := "/d/a", state := RunningTransfer, bytesTotal := 5,
          bytesReceived := 3,
          device := some { fileName := "/d/a", isTemporary := false, append := false, pos := 3 } }
      else if p = 2 then
        { source := "http://h/b", target := "", state := RunningTransfer, bytesTotal := 4,
          device := some { fileName := "/tmp/otter-download-1.dat", isTemporary := true,
                           append := false, pos := 2 } }
      else {} }

/-- The user first picks `/d/a` in the file dialog, confirms the warning, then picks `/d/b`. -/
def retryDialogs : Dialogs :=
  { fileDialog := [some "/d/a", some "/d/b"], messageBox := [true] }

/-- The value of a decimal numeral (used to show that `arg` is injective). -/
def decimalValue (digits : List Char) : Nat :=
  digits.foldl (fun acc c => 10 * acc + (c.toNat - 48)) 0

/-- The clause of `save` that skips a record: private, hidden, or `Finished` with a valid
finished time more than `History/DownloadsLimitPeriod` days before now. -/
def skippedBySave (w : TransfersManager) (p : Nat) : Bool :=
  decide ((w.heap p).isPrivate ∨ (w.heap p).isHidden
    ∨ ((w.heap p).state = FinishedTransfer ∧ (w.heap p).finished.isValid
        ∧ (w.heap p).finished.daysTo w.now > w.settings.downloadsLimitPeriod))

/-- The records `save` persists, in active-set order. -/
def keptBySave (w : TransfersManager) : List Nat :=
  w.m_transfers.filter (fun p => ! skippedBySave w p)

/-- The history entry of record `p` under the key `entry`: its six bindings. -/
def entryBindings (w : TransfersManager) (entry p : Nat) : QSettings :=
  [ ((arg entry, "source"), .string (w.heap p).source),
    ((arg entry, "target"), .string (w.heap p).target),
    ((arg entry, "started"), .dateTime (w.heap p).started),
    ((arg entry, "finished"),
      .dateTime (if (w.heap p).finished.isValid ∧ (w.heap p).state ≠ RunningTransfer
        then (w.heap p).finished else w.now)),
    ((arg entry, "bytesTotal"), .longLong (w.heap p).bytesTotal),
    ((arg entry, "bytesReceived"), .longLong (w.heap p).bytesReceived) ]

/-- The history the specification describes: one entry for each persisted record, keyed
`1`, `2`, ... in active-set order. -/
def expectedHistory (w : TransfersManager) : QSettings :=
  ((keptBySave w).enumFrom 1).flatMap (fun numbered => entryBindings w numbered.1 numbered.2)

/-- Ten finished downloads, records `1` to `10` in this order; record `p` received all of
its `p` bytes, none is private or hidden, and all finished today. -/
def tenFinishedState : TransfersManager :=
  { emptyState with
    m_transfers := [1, 2, 3, 4, 5, 6, 7, 8, 9, 10]
    nextTransfer := 11
    heap := fun p =>
      if 1 ≤ p ∧ p ≤ 10 then
        { source := "http://h/" ++ arg p, target := "/d/" ++ arg p, state := FinishedTransfer,
          bytesTotal := p, bytesReceived := p,
          started := ⟨true, 2457000, 0⟩, finished := ⟨true, 2457000, 0⟩ }
      else {} }

/-- A reply as the transport hands it out: nothing has arrived yet. -/
def pendingReply : QNetworkReply :=
  { request := { url := "", rawHeaders := [] }, url := "http://h/a", isFinished := false,
    pending := [], httpStatusCode := none, contentType := none, contentLength := 0,
    contentDisposition := none, alive := true }

/-- A finished download: record `1` received all three bytes of `/d/a`. -/
def finishedState : TransfersManager :=
  { emptyState with
    m_transfers := [1]
    nextTransfer := 2
    files := fun p => if p = "/d/a" then some [10, 20, 30] else none
    heap := fun p =>
      if p = 1 then
        { source := "http://h/a", target := "/d/a", state := FinishedTransfer, bytesTotal := 3,
          bytesReceived := 3, started := ⟨true, 2456999, 0⟩, finished := ⟨true, 2456999, 5⟩ }
      else {} }

/-- A failed download of unknown length: record `1` is in state `Error`, two bytes of
`/d/a` are on disk, no operation is mapped, and `bytesTotal` is `-1` (the last
`downloadProgress` reported the total `-1`). -/
def errorUnknownState : TransfersManager :=
  { emptyState with
    m_transfers := [1]
    nextTransfer := 2
    files := fun p => if p = "/d/a" then some [10, 20] else none
    heap := fun p =>
      if p = 1 then
        { source := "http://h/a", target := "/d/a", state := ErrorTransfer, bytesTotal := -1,
          bytesReceived := 2, started := ⟨true, 2456999, 0⟩, finished := ⟨true, 2456999, 5⟩ }
      else {} }

/-- A failed download of known length: record `1` is in state `Error`, two of the five
bytes of `/d/a` are on disk and no operation is mapped. -/
def errorKnownState : TransfersManager :=
  { emptyState with
    m_transfers := [1]
    nextTransfer := 2
    files := fun p => if p = "/d/a" then some [10, 20] else none
    heap := fun p =>
      if p = 1 then
        { source := "http://h/a", target := "/d/a", state := ErrorTransfer, bytesTotal := 5,
          bytesReceived := 2, started := ⟨true, 2456999, 0⟩, finished := ⟨true, 2456999, 5⟩ }
      else {} }

/-- The server ignores the range request: the status becomes `200` and the full body of
five bytes is ready to be read. -/
def fullResponse (w : TransfersManager) (reply : Nat) : TransfersManager :=
  w.modifyReply reply (fun r => { r with httpStatusCode := some 200, pending := [1, 2, 3, 4, 5] })

/-- Record `1` finished a download to `/d/a`; later record `2` was started on the same
path (allowed: record `1` is not `Running`) and is still `Running`, mapped to operation `7`. -/
def sharedTargetState : TransfersManager :=
  { emptyState with
    m_transfers := [1, 2]
    m_replies := [(7, 2)]
    nextTransfer := 3
    files := fun p => if p = "/d/a" then some [40] else none
    heap := fun p =>
      if p = 1 then
        { source := "http://h/a", target := "/d/a", state := FinishedTransfer, bytesTotal := 3,
          bytesReceived := 3, started := ⟨true, 2456999, 0⟩, finished := ⟨true, 2456999, 5⟩ }
      else if p = 2 then
        { source := "http://h/a2", target := "/d/a", state := RunningTransfer, bytesTotal := 9,
          bytesReceived := 1, started := ⟨true, 2457000, 0⟩,
          device := some { fileName := "/d/a", isTemporary := false, append := false, pos := 1 } }
      else {} }

/-- The invariant of the data model: no two different records of the active set in state
`Running` have the same target. -/
@[reducible] def NoSharedRunningTarget (w : TransfersManager) : Prop :=
  ∀ p ∈ w.m_transfers, ∀ q ∈ w.m_transfers, p ≠ q →
    (w.heap p).state = RunningTransfer → (w.heap q).state = RunningTransfer →
      (w.heap p).target ≠ (w.heap q).target

/-- The matching rule of `isDownloading`, a query field being given when it is not empty: both given and both equal, or only the target
given and equal, or only the source given and equal. -/
def Matches (t : TransferInformation) (source target : String) : Prop :=
  (¬ source.isEmpty ∧ ¬ target.isEmpty ∧ t.source = source ∧ t.target = target)
  ∨ (source.isEmpty ∧ ¬ target.isEmpty ∧ t.target = target)
  ∨ (¬ source.isEmpty ∧ target.isEmpty ∧ t.source = source)

/-- A failed download whose length was never learnt: as `errorUnknownState`, with
`bytesTotal = 0`. -/
def errorZeroState : TransfersManager :=
  { emptyState with
    m_transfers := [1]
    nextTransfer := 2
    files := fun p => if p = "/d/a" then some [10, 20] else none
    heap := fun p =>
      if p = 1 then
        { source := "http://h/a", target := "/d/a", state := ErrorTransfer, bytesTotal := 0,
          bytesReceived := 2, started := ⟨true, 2456999, 0⟩, finished := ⟨true, 2456999, 5⟩ }
      else {} }

/-- The first nine of the ten finished downloads. -/
def nineFinishedState : TransfersManager :=
  { tenFinishedState with m_transfers := [1, 2, 3, 4, 5, 6, 7, 8, 9] }

/-- A failed download whose progress reports lagged behind the data: record `1` is in
state `Error` with `bytesReceived = 1` (the last `downloadProgress` reported one byte)
while `downloadData` had already written two bytes to `/d/a`; no operation is mapped. -/
def laggingState : TransfersManager :=
  { emptyState with
    m_transfers := [1]
    nextTransfer := 2
    files := fun p => if p = "/d/a" then some [10, 20] else none
    heap := fun p =>
      if p = 1 then
        { source := "http://h/a", target := "/d/a", state := ErrorTransfer, bytesTotal := 5,
          bytesReceived := 1, started := ⟨true, 2456999, 0⟩, finished := ⟨true, 2456999, 5⟩ }
      else {} }

/-- The server honours the range request: the status becomes `206` and one more byte is
ready to be read. -/
def partialResponse (w : TransfersManager) (reply : Nat) : TransfersManager :=
  w.modifyReply reply (fun r => { r with httpStatusCode := some 206, pending := [30] })

/-- Lines 373 to 392 of `startTransfer`: the file name derived from the
`Content-Disposition` header, else from the URL, else the generic name `file`. -/
def derivedFileName (w : TransfersManager) (transfer reply : Nat) : String :=
  let fromHeader :=
    match (w.network reply).contentDisposition with
    | some header => w.urlFileName (String.mk (capturedFileName header.data))
    | none => ""
  let fromUrl := if fromHeader.isEmpty then w.urlFileName (w.heap transfer).source else fromHeader
  if fromUrl.isEmpty then "file" else fromUrl

/-- The MIME type of PDF documents, with the preferred suffix `pdf`. -/
def pdfType : QMimeType := { name := "application/pdf", preferredSuffix := "pdf" }

/-- The MIME type Qt reports for empty data, `application/x-zerosize`; it has no suffix. -/
def zeroSizeType : QMimeType := { name := "application/x-zerosize", preferredSuffix := "" }

/-- A process about to start the transfer of `http://h/files/report` (a resource of 1000
bytes): every operation is a response with the header `Content-Type: application/pdf` and
no `Content-Disposition` header, whose first four bytes (`%PDF`) are ready to be read.  The
MIME database knows PDF by name and by content and reports the zero-size type for empty
data; downloads are saved to the downloads directory without asking. -/
def pdfReportState : TransfersManager :=
  { emptyState with
    urlPath := fun u => if u = "http://h/files/report" then "/files/report" else u
    mimeTypeForName := fun n => if n = "application/pdf" then pdfType else QMimeType.null
    mimeTypeForData := fun data => if data = [] then zeroSizeType else pdfType
    settings := { emptyState.settings with alwaysAskWhereToSaveDownload := false }
    network := fun _ =>
      { request := { url := "http://h/files/report", rawHeaders := [] },
        url := "http://h/files/report", isFinished := false, pending := [37, 80, 68, 70],
        httpStatusCode := some 200, contentType := some "application/pdf",
        contentLength := 1000, contentDisposition := none, alive := true } }

/-- `QDir::toNativeSeparators` where the native separator is the backslash: every `/`
becomes a backslash. -/
def backslashSeparators (path : String) : String :=
  String.mk (path.data.map (fun c => if c = '/' then '\\' else c))

/-- A process with no transfers on a platform whose native separator is the backslash;
every operation is a response of five bytes that is still streaming, two bytes are ready
to be read. -/
def backslashState : TransfersManager :=
  { emptyState with
    toNativeSeparators := backslashSeparators
    separator := "\\"
    settings :=
      { emptyState.settings with pathsDownloads := "C:/Users/u/Downloads",
                                 pathsSaveFile := "C:/Users/u" }
    network := fun _ =>
      { request := { url := "http://h/a", rawHeaders := [] }, url := "http://h/a",
        isFinished := false, pending := [10, 20], httpStatusCode := some 200,
        contentType := none, contentLength := 5, contentDisposition := none, alive := true } }

/-- The user picks `C:/d/a` in the file dialog (which reports paths with `/`) for the first
download and again for the second, and would confirm a warning. -/
def sameChoiceDialogs : Dialogs :=
  { fileDialog := [some "C:/d/a", some "C:/d/a"], messageBox := [true] }

/-! ## Reading the state after a write through a pointer -/

@[simp] theorem modify_heap_same (w : TransfersManager) (p : Nat)
    (f : TransferInformation → TransferInformation) :
    (w.modify p f).heap p = f (w.heap p) := by
  simp [TransfersManager.modify]

theorem modify_heap_ne (w : TransfersManager) (p q : Nat)
    (f : TransferInformation → TransferInformation) (h : q ≠ p) :
    (w.modify p f).heap q = w.heap q := by
  simp [TransfersManager.modify, Function.update_noteq h]

@[simp] theorem modify_m_transfers (w : TransfersManager) (p : Nat)
    (f : TransferInformation → TransferInformation) : (w.modify p f).m_transfers = w.m_transfers := rfl

@[simp] theorem modify_m_replies (w : TransfersManager) (p : Nat)
    (f : TransferInformation → TransferInformation) : (w.modify p f).m_replies = w.m_replies := rfl

@[simp] theorem modify_m_updateTimer (w : TransfersManager) (p : Nat)
    (f : TransferInformation → TransferInformation) : (w.modify p f).m_updateTimer = w.m_updateTimer := rfl

@[simp] theorem modify_network (w : TransfersManager) (p : Nat)
    (f : TransferInformation → TransferInformation) : (w.modify p f).network = w.network := rfl

@[simp] theorem modify_files (w : TransfersManager) (p : Nat)
    (f : TransferInformation → TransferInformation) : (w.modify p f).files = w.files := rfl

@[simp] theorem modify_canOpen (w : TransfersManager) (p : Nat)
    (f : TransferInformation → TransferInformation) : (w.modify p f).canOpen = w.canOpen := rfl

@[simp] theorem modify_isWritable (w : TransfersManager) (p : Nat)
    (f : TransferInformation → TransferInformation) : (w.modify p f).isWritable = w.isWritable := rfl

@[simp] theorem modify_dirPath (w : TransfersManager) (p : Nat)
    (f : TransferInformation → TransferInformation) : (w.modify p f).dirPath = w.dirPath := rfl

@[simp] theorem modify_canonical (w : TransfersManager) (p : Nat)
    (f : TransferInformation → TransferInformation) : (w.modify p f).canonical = w.canonical := rfl

@[simp] theorem modify_toNativeSeparators (w : TransfersManager) (p : Nat)
    (f : TransferInformation → TransferInformation) : (w.modify p f).toNativeSeparators = w.toNativeSeparators := rfl

@[simp] theorem modify_mimeTypeForName (w : TransfersManager) (p : Nat)
    (f : TransferInformation → TransferInformation) : (w.modify p f).mimeTypeForName = w.mimeTypeForName := rfl

@[simp] theorem modify_mimeTypeForData (w : TransfersManager) (p : Nat)
    (f : TransferInformation → TransferInformation) : (w.modify p f).mimeTypeForData = w.mimeTypeForData := rfl

@[simp] theorem modify_history (w : TransfersManager) (p : Nat)
    (f : TransferInformation → TransferInformation) : (w.modify p f).history = w.history := rfl

@[simp] theorem modify_settings (w : TransfersManager) (p : Nat)
    (f : TransferInformation → TransferInformation) : (w.modify p f).settings = w.settings := rfl

@[simp] theorem modify_now (w : TransfersManager) (p : Nat)
    (f : TransferInformation → TransferInformation) : (w.modify p f).now = w.now := rfl

@[simp] theorem modify_emitted (w : TransfersManager) (p : Nat)
    (f : TransferInformation → TransferInformation) : (w.modify p f).emitted = w.emitted := rfl

@[simp] theorem modify_nextTransfer (w : TransfersManager) (p : Nat)
    (f : TransferInformation → TransferInformation) : (w.modify p f).nextTransfer = w.nextTransfer := rfl

@[simp] theorem modify_separator (w : TransfersManager) (p : Nat)
    (f : TransferInformation → TransferInformation) : (w.modify p f).separator = w.separator := rfl

@[simp] theorem modify_urlPath (w : TransfersManager) (p : Nat)
    (f : TransferInformation → TransferInformation) : (w.modify p f).urlPath = w.urlPath := rfl

@[simp] theorem notify_m_transfers (w : TransfersManager) (p : Nat) (ns : List Notification) :
    (w.notify p ns).m_transfers = w.m_transfers := by
  unfold notify; split_ifs <;> rfl

@[simp] theorem notify_m_replies (w : TransfersManager) (p : Nat) (ns : List Notification) :
    (w.notify p ns).m_replies = w.m_replies := by
  unfold notify; split_ifs <;> rfl

@[simp] theorem notify_m_updateTimer (w : TransfersManager) (p : Nat) (ns : List Notification) :
    (w.notify p ns).m_updateTimer = w.m_updateTimer := by
  unfold notify; split_ifs <;> rfl

@[simp] theorem notify_heap (w : TransfersManager) (p : Nat) (ns : List Notification) :
    (w.notify p ns).heap = w.heap := by
  unfold notify; split_ifs <;> rfl

@[simp] theorem notify_network (w : TransfersManager) (p : Nat) (ns : List Notification) :
    (w.notify p ns).network = w.network := by
  unfold notify; split_ifs <;> rfl

@[simp] theorem notify_files (w : TransfersManager) (p : Nat) (ns : List Notification) :
    (w.notify p ns).files = w.files := by
  unfold notify; split_ifs <;> rfl

@[simp] theorem notify_canOpen (w : TransfersManager) (p : Nat) (ns : List Notification) :
    (w.notify p ns).canOpen = w.canOpen := by
  unfold notify; split_ifs <;> rfl

@[simp] theorem notify_isWritable (w : TransfersManager) (p : Nat) (ns : List Notification) :
    (w.notify p ns).isWritable = w.isWritable := by
  unfold notify; split_ifs <;> rfl

@[simp] theorem notify_dirPath (w : TransfersManager) (p : Nat) (ns : List Notification) :
    (w.notify p ns).dirPath = w.dirPath := by
  unfold notify; split_ifs <;> rfl

@[simp] theorem notify_canonical (w : TransfersManager) (p : Nat) (ns : List Notification) :
    (w.notify p ns).canonical = w.canonical := by
  unfold notify; split_ifs <;> rfl

@[simp] theorem notify_toNativeSeparators (w : TransfersManager) (p : Nat) (ns : List Notification) :
    (w.notify p ns).toNativeSeparators = w.toNativeSeparators := by
  unfold notify; split_ifs <;> rfl

@[simp] theorem notify_mimeTypeForName (w : TransfersManager) (p : Nat) (ns : List Notification) :
    (w.notify p ns).mimeTypeForName = w.mimeTypeForName := by
  unfold notify; split_ifs <;> rfl

@[simp] theorem notify_mimeTypeForData (w : TransfersManager) (p : Nat) (ns : List Notification) :
    (w.notify p ns).mimeTypeForData = w.mimeTypeForData := by
  unfold notify; split_ifs <;> rfl

@[simp] theorem notify_mimeTypeForFile (w : TransfersManager) (p : Nat) (ns : List Notification) :
    (w.notify p ns).mimeTypeForFile = w.mimeTypeForFile := by
  unfold notify; split_ifs <;> rfl

@[simp] theorem notify_history (w : TransfersManager) (p : Nat) (ns : List Notification) :
    (w.notify p ns).history = w.history := by
  unfold notify; split_ifs <;> rfl

@[simp] theorem notify_settings (w : TransfersManager) (p : Nat) (ns : List Notification) :
    (w.notify p ns).settings = w.settings := by
  unfold notify; split_ifs <;> rfl

@[simp] theorem notify_now (w : TransfersManager) (p : Nat) (ns : List Notification) :
    (w.notify p ns).now = w.now := by
  unfold notify; split_ifs <;> rfl

@[simp] theorem notify_nextTransfer (w : TransfersManager) (p : Nat) (ns : List Notification) :
    (w.notify p ns).nextTransfer = w.nextTransfer := by
  unfold notify; split_ifs <;> rfl

@[simp] theorem notify_separator (w : TransfersManager) (p : Nat) (ns : List Notification) :
    (w.notify p ns).separator = w.separator := by
  unfold notify; split_ifs <;> rfl

@[simp] theorem notify_urlPath (w : TransfersManager) (p : Nat) (ns : List Notification) :
    (w.notify p ns).urlPath = w.urlPath := by
  unfold notify; split_ifs <;> rfl

@[simp] theorem write_heap_same (w : TransfersManager) (p : Nat) (d : QIODevice)
    (data : List Nat) :
    (w.write p d data).heap p =
      { w.heap p with device := some { d with
          pos := if d.append then ((w.files d.fileName).getD []).length + data.length
                 else d.pos + data.length } } := by
  simp [TransfersManager.write]

theorem write_heap_ne (w : TransfersManager) (p q : Nat) (d : QIODevice) (data : List Nat)
    (h : q ≠ p) : (w.write p d data).heap q = w.heap q := by
  simp [TransfersManager.write, Function.update_noteq h]

@[simp] theorem write_m_transfers (w : TransfersManager) (p : Nat) (d : QIODevice)
    (data : List Nat) : (w.write p d data).m_transfers = w.m_transfers := rfl

@[simp] theorem write_m_replies (w : TransfersManager) (p : Nat) (d : QIODevice)
    (data : List Nat) : (w.write p d data).m_replies = w.m_replies := rfl

@[simp] theorem write_m_updateTimer (w : TransfersManager) (p : Nat) (d : QIODevice)
    (data : List Nat) : (w.write p d data).m_updateTimer = w.m_updateTimer := rfl

@[simp] theorem write_network (w : TransfersManager) (p : Nat) (d : QIODevice)
    (data : List Nat) : (w.write p d data).network = w.network := rfl

@[simp] theorem write_canOpen (w : TransfersManager) (p : Nat) (d : QIODevice)
    (data : List Nat) : (w.write p d data).canOpen = w.canOpen := rfl

@[simp] theorem write_isWritable (w : TransfersManager) (p : Nat) (d : QIODevice)
    (data : List Nat) : (w.write p d data).isWritable = w.isWritable := rfl

@[simp] theorem write_dirPath (w : TransfersManager) (p : Nat) (d : QIODevice)
    (data : List Nat) : (w.write p d data).dirPath = w.dirPath := rfl

@[simp] theorem write_canonical (w : TransfersManager) (p : Nat) (d : QIODevice)
    (data : List Nat) : (w.write p d data).canonical = w.canonical := rfl

@[simp] theorem write_toNativeSeparators (w : TransfersManager) (p : Nat) (d : QIODevice)
    (data : List Nat) : (w.write p d data).toNativeSeparators = w.toNativeSeparators := rfl

@[simp] theorem write_mimeTypeForName (w : TransfersManager) (p : Nat) (d : QIODevice)
    (data : List Nat) : (w.write p d data).mimeTypeForName = w.mimeTypeForName := rfl

@[simp] theorem write_mimeTypeForData (w : TransfersManager) (p : Nat) (d : QIODevice)
    (data : List Nat) : (w.write p d data).mimeTypeForData = w.mimeTypeForData := rfl

@[simp] theorem write_mimeTypeForFile (w : TransfersManager) (p : Nat) (d : QIODevice)
    (data : List Nat) : (w.write p d data).mimeTypeForFile = w.mimeTypeForFile := rfl

@[simp] theorem write_history (w : TransfersManager) (p : Nat) (d : QIODevice)
    (data : List Nat) : (w.write p d data).history = w.history := rfl

@[simp] theorem write_settings (w : TransfersManager) (p : Nat) (d : QIODevice)
    (data : List Nat) : (w.write p d data).settings = w.settings := rfl

@[simp] theorem write_now (w : TransfersManager) (p : Nat) (d : QIODevice)
    (data : List Nat) : (w.write p d data).now = w.now := rfl

@[simp] theorem write_emitted (w : TransfersManager) (p : Nat) (d : QIODevice)
    (data : List Nat) : (w.write p d data).emitted = w.emitted := rfl

@[simp] theorem write_nextTransfer (w : TransfersManager) (p : Nat) (d : QIODevice)
    (data : List Nat) : (w.write p d data).nextTransfer = w.nextTransfer := rfl

@[simp] theorem write_separator (w : TransfersManager) (p : Nat) (d : QIODevice)
    (data : List Nat) : (w.write p d data).separator = w.separator := rfl

@[simp] theorem write_urlPath (w : TransfersManager) (p : Nat) (d : QIODevice)
    (data : List Nat) : (w.write p d data).urlPath = w.urlPath := rfl

@[simp] theorem readAll_m_transfers (w : TransfersManager) (reply : Nat) :
    (w.readAll reply).2.m_transfers = w.m_transfers := rfl

@[simp] theorem readAll_m_replies (w : TransfersManager) (reply : Nat) :
    (w.readAll reply).2.m_replies = w.m_replies := rfl

@[simp] theorem readAll_m_updateTimer (w : TransfersManager) (reply : Nat) :
    (w.readAll reply).2.m_updateTimer = w.m_updateTimer := rfl

@[simp] theorem readAll_heap (w : TransfersManager) (reply : Nat) :
    (w.readAll reply).2.heap = w.heap := rfl

@[simp] theorem readAll_files (w : TransfersManager) (reply : Nat) :
    (w.readAll reply).2.files = w.files := rfl

@[simp] theorem readAll_canOpen (w : TransfersManager) (reply : Nat) :
    (w.readAll reply).2.canOpen = w.canOpen := rfl

@[simp] theorem readAll_isWritable (w : TransfersManager) (reply : Nat) :
    (w.readAll reply).2.isWritable = w.isWritable := rfl

@[simp] theorem readAll_dirPath (w : TransfersManager) (reply : Nat) :
    (w.readAll reply).2.dirPath = w.dirPath := rfl

@[simp] theorem readAll_canonical (w : TransfersManager) (reply : Nat) :
    (w.readAll reply).2.canonical = w.canonical := rfl

@[simp] theorem readAll_toNativeSeparators (w : TransfersManager) (reply : Nat) :
    (w.readAll reply).2.toNativeSeparators = w.toNativeSeparators := rfl

@[simp] theorem readAll_mimeTypeForName (w : TransfersManager) (reply : Nat) :
    (w.readAll reply).2.mimeTypeForName = w.mimeTypeForName := rfl

@[simp] theorem readAll_mimeTypeForData (w : TransfersManager) (reply : Nat) :
    (w.readAll reply).2.mimeTypeForData = w.mimeTypeForData := rfl

@[simp] theorem readAll_mimeTypeForFile (w : TransfersManager) (reply : Nat) :
    (w.readAll reply).2.mimeTypeForFile = w.mimeTypeForFile := rfl

@[simp] theorem readAll_history (w : TransfersManager) (reply : Nat) :
    (w.readAll reply).2.history = w.history := rfl

@[simp] theorem readAll_settings (w : TransfersManager) (reply : Nat) :
    (w.readAll reply).2.settings = w.settings := rfl

@[simp] theorem readAll_now (w : TransfersManager) (reply : Nat) :
    (w.readAll reply).2.now = w.now := rfl

@[simp] theorem readAll_emitted (w : TransfersManager) (reply : Nat) :
    (w.readAll reply).2.emitted = w.emitted := rfl

@[simp] theorem readAll_nextTransfer (w : TransfersManager) (reply : Nat) :
    (w.readAll reply).2.nextTransfer = w.nextTransfer := rfl

@[simp] theorem readAll_separator (w : TransfersManager) (reply : Nat) :
    (w.readAll reply).2.separator = w.separator := rfl

@[simp] theorem readAll_urlPath (w : TransfersManager) (reply : Nat) :
    (w.readAll reply).2.urlPath = w.urlPath := rfl

@[simp] theorem modifyReply_m_transfers (w : TransfersManager) (reply : Nat)
    (f : QNetworkReply → QNetworkReply) : (w.modifyReply reply f).m_transfers = w.m_transfers := rfl

@[simp] theorem modifyReply_m_replies (w : TransfersManager) (reply : Nat)
    (f : QNetworkReply → QNetworkReply) : (w.modifyReply reply f).m_replies = w.m_replies := rfl

@[simp] theorem modifyReply_m_updateTimer (w : TransfersManager) (reply : Nat)
    (f : QNetworkReply → QNetworkReply) : (w.modifyReply reply f).m_updateTimer = w.m_updateTimer := rfl

@[simp] theorem modifyReply_heap (w : TransfersManager) (reply : Nat)
    (f : QNetworkReply → QNetworkReply) : (w.modifyReply reply f).heap = w.heap := rfl

@[simp] theorem modifyReply_files (w : TransfersManager) (reply : Nat)
    (f : QNetworkReply → QNetworkReply) : (w.modifyReply reply f).files = w.files := rfl

@[simp] theorem modifyReply_canOpen (w : TransfersManager) (reply : Nat)
    (f : QNetworkReply → QNetworkReply) : (w.modifyReply reply f).canOpen = w.canOpen := rfl

@[simp] theorem modifyReply_isWritable (w : TransfersManager) (reply : Nat)
    (f : QNetworkReply → QNetworkReply) : (w.modifyReply reply f).isWritable = w.isWritable := rfl

@[simp] theorem modifyReply_dirPath (w : TransfersManager) (reply : Nat)
    (f : QNetworkReply → QNetworkReply) : (w.modifyReply reply f).dirPath = w.dirPath := rfl

@[simp] theorem modifyReply_canonical (w : TransfersManager) (reply : Nat)
    (f : QNetworkReply → QNetworkReply) : (w.modifyReply reply f).canonical = w.canonical := rfl

@[simp] theorem modifyReply_toNativeSeparators (w : TransfersManager) (reply : Nat)
    (f : QNetworkReply → QNetworkReply) : (w.modifyReply reply f).toNativeSeparators = w.toNativeSeparators := rfl

@[simp] theorem modifyReply_mimeTypeForName (w : TransfersManager) (reply : Nat)
    (f : QNetworkReply → QNetworkReply) : (w.modifyReply reply f).mimeTypeForName = w.mimeTypeForName := rfl

@[simp] theorem modifyReply_mimeTypeForData (w : TransfersManager) (reply : Nat)
    (f : QNetworkReply → QNetworkReply) : (w.modifyReply reply f).mimeTypeForData = w.mimeTypeForData := rfl

@[simp] theorem modifyReply_mimeTypeForFile (w : TransfersManager) (reply : Nat)
    (f : QNetworkReply → QNetworkReply) : (w.modifyReply reply f).mimeTypeForFile = w.mimeTypeForFile := rfl

@[simp] theorem modifyReply_history (w : TransfersManager) (reply : Nat)
    (f : QNetworkReply → QNetworkReply) : (w.modifyReply reply f).history = w.history := rfl

@[simp] theorem modifyReply_settings (w : TransfersManager) (reply : Nat)
    (f : QNetworkReply → QNetworkReply) : (w.modifyReply reply f).settings = w.settings := rfl

@[simp] theorem modifyReply_now (w : TransfersManager) (reply : Nat)
    (f : QNetworkReply → QNetworkReply) : (w.modifyReply reply f).now = w.now := rfl

@[simp] theorem modifyReply_emitted (w : TransfersManager) (reply : Nat)
    (f : QNetworkReply → QNetworkReply) : (w.modifyReply reply f).emitted = w.emitted := rfl

@[simp] theorem modifyReply_nextTransfer (w : TransfersManager) (reply : Nat)
    (f : QNetworkReply → QNetworkReply) : (w.modifyReply reply f).nextTransfer = w.nextTransfer := rfl

@[simp] theorem modifyReply_separator (w : TransfersManager) (reply : Nat)
    (f : QNetworkReply → QNetworkReply) : (w.modifyReply reply f).separator = w.separator := rfl

@[simp] theorem modifyReply_urlPath (w : TransfersManager) (reply : Nat)
    (f : QNetworkReply → QNetworkReply) : (w.modifyReply reply f).urlPath = w.urlPath := rfl

@[simp] theorem readAll_data (w : TransfersManager) (reply : Nat) :
    (w.readAll reply).1 = (w.network reply).pending := rfl

/-! ## Completion: `downloadFinished` -/

theorem finalizeRecord_spec (m : QMimeType) (t : TransferInformation) :
    (finalizeRecord m t).bytesReceived = t.bytesReceived
    ∧ (finalizeRecord m t).bytesTotal =
        (if t.bytesTotal ≤ 0 ∧ t.bytesReceived > 0 then t.bytesReceived else t.bytesTotal)
    ∧ (finalizeRecord m t).state =
        (if t.bytesReceived = 0 ∨ t.bytesReceived < (finalizeRecord m t).bytesTotal
          then ErrorTransfer else t.state)
    ∧ (finalizeRecord m t).device = t.device
    ∧ (finalizeRecord m t).isHidden = t.isHidden
    ∧ (finalizeRecord m t).target = t.target := by
  unfold finalizeRecord
  by_cases h1 : t.bytesTotal ≤ 0 ∧ t.bytesReceived > 0
  · rw [if_pos h1]
    by_cases h2 : t.bytesReceived = 0 ∨ t.bytesReceived < t.bytesReceived
    · simp only [if_pos h2, if_pos h1, and_self]
    · simp only [if_neg h2, if_pos h1, and_self]
  · rw [if_neg h1]
    by_cases h2 : t.bytesReceived = 0 ∨ t.bytesReceived < t.bytesTotal
    · simp only [if_pos h2, if_neg h1, and_self]
    · simp only [if_neg h2, if_neg h1, and_self]

theorem finalizeRecord_isHidden (m : QMimeType) (t : TransferInformation) :
    (finalizeRecord m t).isHidden = t.isHidden := (finalizeRecord_spec m t).2.2.2.2.1

theorem finalizeRecord_target (m : QMimeType) (t : TransferInformation) :
    (finalizeRecord m t).target = t.target := (finalizeRecord_spec m t).2.2.2.2.2

theorem isDownloadingLoop_iff (heap : Nat → TransferInformation) (source target : String)
    (hgiven : ¬ (source.isEmpty ∧ target.isEmpty)) (l : List Nat) :
    isDownloadingLoop heap source target l = true ↔
      ∃ p ∈ l, (heap p).state = RunningTransfer ∧ Matches (heap p) source target := by
  induction l with
  | nil => simp [isDownloadingLoop]
  | cons p rest ih =>
    simp only [isDownloadingLoop, List.mem_cons, exists_eq_or_imp]
    by_cases hs : (heap p).state = RunningTransfer
    · rw [if_neg (fun h => h hs)]
      by_cases h1 : source.isEmpty ∧ (heap p).target = target
      · have ht : ¬ target.isEmpty := fun h => hgiven ⟨h1.1, h⟩
        rw [if_pos h1]
        exact ⟨fun _ => Or.inl ⟨hs, Or.inr (Or.inl ⟨h1.1, ht, h1.2⟩)⟩, fun _ => rfl⟩
      · rw [if_neg h1]
        by_cases h2 : target.isEmpty ∧ (heap p).source = source
        · have hs2 : ¬ source.isEmpty := fun h => hgiven ⟨h, h2.1⟩
          rw [if_pos h2]
          exact ⟨fun _ => Or.inl ⟨hs, Or.inr (Or.inr ⟨hs2, h2.1, h2.2⟩)⟩, fun _ => rfl⟩
        · rw [if_neg h2]
          by_cases h3 : ¬ source.isEmpty ∧ ¬ target.isEmpty ∧ (heap p).source = source
              ∧ (heap p).target = target
          · rw [if_pos h3]
            exact ⟨fun _ => Or.inl ⟨hs, Or.inl h3⟩, fun _ => rfl⟩
          · rw [if_neg h3, ih]
            constructor
            · intro h; exact Or.inr h
            · rintro (⟨_, h⟩ | h)
              · rcases h with h | h | h
                · exact absurd h h3
                · exact absurd ⟨h.1, h.2.2⟩ h1
                · exact absurd ⟨h.2.1, h.2.2⟩ h2
              · exact h
    · rw [if_pos hs, ih]
      constructor
      · intro h; exact Or.inr h
      · rintro (⟨h, _⟩ | h)
        · exact absurd h hs
        · exact h

theorem isDownloading_eq_true_iff (v : TransfersManager) (source target : String) :
    v.isDownloading source target = true ↔
      ∃ p ∈ v.m_transfers, (v.heap p).state = RunningTransfer
        ∧ Matches (v.heap p) source target := by
  unfold isDownloading
  by_cases hg : source.isEmpty ∧ target.isEmpty
  · simp only [hg, and_self, if_true, Bool.false_eq_true, false_iff, not_exists, not_and]
    intro p _ _ hm
    rcases hm with h | h | h
    · exact h.1 hg.1
    · exact h.2.1 hg.2
    · exact h.1 hg.1
  · simp only [hg, if_false]
    exact isDownloadingLoop_iff v.heap source target hg v.m_transfers

/-- C2: `isDownloading(source, target)` is true exactly when some record of the active set
in state `Running` matches the query (both given and both equal; only the target given and
equal; only the source given and equal).  It is false for every query on an empty active
set and on an active set from which the `Running` records are left out. -/
theorem isDownloading_iff (w : TransfersManager) (source target : String) :
    (w.isDownloading source target = true ↔
      ∃ p ∈ w.m_transfers, (w.heap p).state = RunningTransfer
        ∧ Matches (w.heap p) source target)
    ∧ ({ w with m_transfers := [] }).isDownloading source target = false
    ∧ ({ w with m_transfers :=
          w.m_transfers.filter (fun p => (w.heap p).state ≠ RunningTransfer) }).isDownloading
        source target = false := by
  refine ⟨isDownloading_eq_true_iff w source target, ?_, ?_⟩
  · rw [← Bool.not_eq_true, isDownloading_eq_true_iff]
    simp
  · rw [← Bool.not_eq_true, isDownloading_eq_true_iff]
    simp only [List.mem_filter, not_exists, not_and]
    intro p hp hs
    simp [hs] at hp

/-! ## Completion: `downloadFinished` (continued) -/

theorem key_eq_of_unique (h : ReplyHash) (reply transfer : Nat)
    (hmapped : h.contains reply = true) (hvalue : h.value reply = transfer)
    (hunique : ∀ b ∈ h, b.2 = transfer → b.1 = reply) : h.key transfer = reply := by
  unfold ReplyHash.key
  cases hfind : List.find? (fun b => decide (b.2 = transfer)) h with
  | some b =>
    have hb := List.find?_some hfind
    have hmem := List.mem_of_find?_eq_some hfind
    exact hunique b hmem (by simpa using hb)
  | none =>
    exfalso
    rw [List.find?_eq_none] at hfind
    unfold ReplyHash.contains at hmapped
    unfold ReplyHash.value at hvalue
    rw [List.any_eq_true] at hmapped
    obtain ⟨b, hb, hbr⟩ := hmapped
    cases hf2 : List.find? (fun b => decide (b.1 = reply)) h with
    | some c =>
      rw [hf2] at hvalue
      have hc := List.mem_of_find?_eq_some hf2
      exact hfind c hc (by simpa using hvalue)
    | none =>
      rw [List.find?_eq_none] at hf2
      exact hf2 b hb hbr

theorem contains_remove (h : ReplyHash) (reply : Nat) :
    (h.remove reply).contains reply = false := by
  unfold ReplyHash.remove ReplyHash.contains
  rw [← Bool.not_eq_true, List.any_eq_true]
  rintro ⟨b, hb, hbr⟩
  rw [List.mem_filter] at hb
  simp at hbr
  simp [hbr] at hb

theorem stopTransfer_fields (w : TransfersManager) (transfer : Nat) :
    ((w.stopTransfer transfer).heap transfer).state = ErrorTransfer
    ∧ ((w.stopTransfer transfer).heap transfer).finished = w.now
    ∧ ((w.stopTransfer transfer).heap transfer).device = none
    ∧ (w.stopTransfer transfer).m_transfers = w.m_transfers
    ∧ (w.stopTransfer transfer).m_replies =
        (if w.m_replies.key transfer ≠ 0 then w.m_replies.remove (w.m_replies.key transfer)
          else w.m_replies) := by
  unfold stopTransfer
  simp only [notify_heap, modify_heap_same, notify_m_transfers, modify_m_transfers,
    notify_m_replies, modify_m_replies, modify_now]
  split_ifs <;> simp_all

/-- C8: for a record mapped to exactly one network operation, after `downloadError` runs
for that operation the record has `state = Error`, `finished` is the current time, the
sink is null, the operation is no longer in the operation to record map, and the active
set is unchanged (the record stays in it). -/
theorem downloadError_stops (w : TransfersManager) (reply transfer error : Nat)
    (hreply : reply ≠ 0) (hmapped : w.m_replies.contains reply = true)
    (hvalue : w.m_replies.value reply = transfer)
    (hunique : ∀ b ∈ w.m_replies, b.2 = transfer → b.1 = reply) :
    ((w.downloadError reply error).heap transfer).state = ErrorTransfer
    ∧ ((w.downloadError reply error).heap transfer).finished = w.now
    ∧ ((w.downloadError reply error).heap transfer).device = none
    ∧ (w.downloadError reply error).m_replies.contains reply = false
    ∧ (w.downloadError reply error).m_transfers = w.m_transfers := by
  obtain ⟨-, hf, hd, ht, hr⟩ := stopTransfer_fields w transfer
  have hkey := key_eq_of_unique w.m_replies reply transfer hmapped hvalue hunique
  unfold downloadError
  rw [if_neg (by simp [hreply, hmapped]), hvalue]
  simp only [modify_heap_same, modify_m_replies, modify_m_transfers, hf, hd, ht, hr, hkey]
  refine ⟨trivial, trivial, trivial, ?_, trivial⟩
  rw [if_pos hreply]
  exact contains_remove _ _

/-! ## Path resolution: `getSavePath` -/

theorem isDownloading_empty_path (w : TransfersManager) (path : String)
    (h : path.isEmpty = true) : w.isDownloading "" path = false := by
  unfold isDownloading
  rw [if_pos ⟨by decide, h⟩]

theorem getSavePathLoop_free (events : TransfersManager → TransfersManager) (fileName : String) :
    ∀ (fuel : Nat) (w : TransfersManager) (d : Dialogs) (path : String)
      (w' : TransfersManager) (d' : Dialogs) (p : String),
      getSavePathLoop events fileName fuel w d path = some (w', d', p) →
        w'.isDownloading "" p = false := by
  intro fuel
  induction fuel with
  | zero => intro w d path w' d' p h; simp [getSavePathLoop] at h
  | succ fuel ih =>
    intro w d path w' d' p h
    unfold getSavePathLoop at h
    by_cases hpath : path.isEmpty = true
    · rw [if_pos hpath] at h
      simp only [] at h
      cases hsel : d.execFileDialog.1 with
      | none =>
        simp only [hsel, Option.some.injEq, Prod.mk.injEq] at h
        rw [← h.2.2]
        exact isDownloading_empty_path _ _ hpath
      | some path1 =>
        simp only [hsel] at h
        by_cases h1 : (events w).isDownloading "" path1 = true
        · rw [if_pos h1] at h
          split_ifs at h
          · exact ih _ _ _ _ _ _ h
          · simp only [Option.some.injEq, Prod.mk.injEq] at h
            rw [← h.2.2]
            exact isDownloading_empty_path _ _ rfl
        · rw [if_neg h1] at h
          split_ifs at h
          · exact ih _ _ _ _ _ _ h
          · simp only [Option.some.injEq, Prod.mk.injEq] at h
            rw [← h.2.2]
            exact isDownloading_empty_path _ _ rfl
          · simp only [Option.some.injEq, Prod.mk.injEq] at h
            rw [← h.2.2, ← h.1]
            simpa using h1
    · rw [if_neg hpath] at h
      simp only [] at h
      by_cases h1 : w.isDownloading "" path = true
      · rw [if_pos h1] at h
        split_ifs at h
        · exact ih _ _ _ _ _ _ h
        · simp only [Option.some.injEq, Prod.mk.injEq] at h
          rw [← h.2.2]
          exact isDownloading_empty_path _ _ rfl
      · rw [if_neg h1] at h
        split_ifs at h
        · exact ih _ _ _ _ _ _ h
        · simp only [Option.some.injEq, Prod.mk.injEq] at h
          rw [← h.2.2]
          exact isDownloading_empty_path _ _ rfl
        · simp only [Option.some.injEq, Prod.mk.injEq] at h
          rw [← h.2.2, ← h.1]
          simpa using h1

theorem askMessageBox_fileDialog (d : Dialogs) :
    (d.askMessageBox).2.fileDialog = d.fileDialog := by
  unfold Dialogs.askMessageBox; split <;> rfl

theorem getSavePathLoop_total (events : TransfersManager → TransfersManager) (fileName : String) :
    ∀ (fuel : Nat) (w : TransfersManager) (d : Dialogs) (path : String),
      d.fileDialog.length + (if path.isEmpty = true then 0 else 1) < fuel →
        (getSavePathLoop events fileName fuel w d path).isSome = true := by
  intro fuel
  induction fuel with
  | zero => intro w d path h; omega
  | succ fuel ih =>
    intro w d path hfuel
    have hempty : ("" : String).isEmpty = true := rfl
    unfold getSavePathLoop
    by_cases hpath : path.isEmpty = true
    · rw [if_pos hpath] at hfuel ⊢
      simp only []
      have hnext : (d.execFileDialog.1).isSome = true →
          (d.execFileDialog.2.askMessageBox).2.fileDialog.length
            + (if ("" : String).isEmpty = true then 0 else 1) < fuel := by
        intro hs
        rw [askMessageBox_fileDialog, if_pos hempty]
        unfold Dialogs.execFileDialog at hs ⊢
        rcases hd : d.fileDialog with _ | ⟨a, rest⟩
        · rw [hd] at hs; simp at hs
        · rw [hd] at hfuel; simp at hfuel ⊢; omega
      cases hsel : d.execFileDialog.1 with
      | none => rfl
      | some path1 =>
        have hn := hnext (by rw [hsel]; rfl)
        simp only []
        split_ifs <;> first | rfl | exact ih _ _ _ hn
    · rw [if_neg hpath] at hfuel ⊢
      simp only []
      have hn : (d.askMessageBox).2.fileDialog.length
            + (if ("" : String).isEmpty = true then 0 else 1) < fuel := by
        rw [askMessageBox_fileDialog, if_pos hempty]; omega
      split_ifs <;> first | rfl | exact ih _ _ _ hn

theorem execFileDialog_mem (d : Dialogs) (x : String) (h : d.execFileDialog.1 = some x) :
    some x ∈ d.fileDialog ∧ ∀ y ∈ (d.execFileDialog.2).fileDialog, y ∈ d.fileDialog := by
  unfold Dialogs.execFileDialog at h ⊢
  rcases hd : d.fileDialog with _ | ⟨a, rest⟩
  · rw [hd] at h; simp at h
  · rw [hd] at h
    simp only at h
    subst h
    simp only [List.mem_cons, true_or, true_and]
    intro y hy
    exact Or.inr hy

/-- Where the result of the loop of `getSavePath` comes from: it is empty, or it was
selected in the file dialog, or it is the path passed in and that path is not in use. -/
theorem getSavePathLoop_origin (events : TransfersManager → TransfersManager)
    (fileName : String) :
    ∀ (fuel : Nat) (w : TransfersManager) (d : Dialogs) (path : String)
      (w' : TransfersManager) (d' : Dialogs) (p : String),
      getSavePathLoop events fileName fuel w d path = some (w', d', p) →
        p.isEmpty = true ∨ some p ∈ d.fileDialog
          ∨ (p = path ∧ w.isDownloading "" path = false) := by
  intro fuel
  induction fuel with
  | zero => intro w d path w' d' p h; simp [getSavePathLoop] at h
  | succ fuel ih =>
    intro w d path w' d' p h
    have hempty : ("" : String).isEmpty = true := rfl
    unfold getSavePathLoop at h
    by_cases hpath : path.isEmpty = true
    · rw [if_pos hpath] at h
      simp only [] at h
      cases hsel : d.execFileDialog.1 with
      | none =>
        simp only [hsel, Option.some.injEq, Prod.mk.injEq] at h
        rw [← h.2.2]
        exact Or.inl hpath
      | some path1 =>
        obtain ⟨hmem, hrest⟩ := execFileDialog_mem d path1 hsel
        have hstep : ∀ w0, getSavePathLoop events fileName fuel w0
            (d.execFileDialog.2.askMessageBox).2 "" = some (w', d', p) →
            p.isEmpty = true ∨ some p ∈ d.fileDialog
              ∨ (p = path ∧ w.isDownloading "" path = false) := by
          intro w0 h0
          rcases ih _ _ _ _ _ _ h0 with h3 | h3 | h3
          · exact Or.inl h3
          · rw [askMessageBox_fileDialog] at h3
            exact Or.inr (Or.inl (hrest _ h3))
          · rw [h3.1]; exact Or.inl hempty
        simp only [hsel] at h
        split_ifs at h
        · exact hstep _ h
        · simp only [Option.some.injEq, Prod.mk.injEq] at h
          rw [← h.2.2]; exact Or.inl hempty
        · exact hstep _ h
        · simp only [Option.some.injEq, Prod.mk.injEq] at h
          rw [← h.2.2]; exact Or.inl hempty
        · simp only [Option.some.injEq, Prod.mk.injEq] at h
          rw [← h.2.2]; exact Or.inr (Or.inl hmem)
    · rw [if_neg hpath] at h
      simp only [] at h
      have hstep : ∀ w0, getSavePathLoop events fileName fuel w0
          (d.askMessageBox).2 "" = some (w', d', p) →
          p.isEmpty = true ∨ some p ∈ d.fileDialog
            ∨ (p = path ∧ w.isDownloading "" path = false) := by
        intro w0 h0
        rcases ih _ _ _ _ _ _ h0 with h3 | h3 | h3
        · exact Or.inl h3
        · rw [askMessageBox_fileDialog] at h3
          exact Or.inr (Or.inl h3)
        · rw [h3.1]; exact Or.inl hempty
      by_cases h1 : w.isDownloading "" path = true
      · rw [if_pos h1] at h
        split_ifs at h
        · exact hstep _ h
        · simp only [Option.some.injEq, Prod.mk.injEq] at h
          rw [← h.2.2]; exact Or.inl hempty
      · rw [if_neg h1] at h
        split_ifs at h
        · exact hstep _ h
        · simp only [Option.some.injEq, Prod.mk.injEq] at h
          rw [← h.2.2]; exact Or.inl hempty
        · simp only [Option.some.injEq, Prod.mk.injEq] at h
          rw [← h.2.2]
          exact Or.inr (Or.inr ⟨rfl, by simpa using h1⟩)

/-- What `getSavePath` returns: it always returns; the returned path is not in use; and a
candidate that is in use is never returned itself, the result then is empty or was
selected in the file dialog. -/
theorem getSavePath_spec (events : TransfersManager → TransfersManager) (w : TransfersManager)
    (d : Dialogs) (fileName path : String) :
    ∃ w' d' p, getSavePath events w d fileName path = some (w', d', p)
      ∧ w'.isDownloading "" p = false
      ∧ (w.isDownloading "" path = true → p.isEmpty = true ∨ some p ∈ d.fileDialog) := by
  have htotal := getSavePathLoop_total events fileName (d.fileDialog.length + 2) w d path
    (by split_ifs <;> omega)
  obtain ⟨⟨w1, d1, p1⟩, hloop⟩ := Option.isSome_iff_exists.mp htotal
  have hfree := getSavePathLoop_free events fileName _ _ _ _ _ _ _ hloop
  have horigin := getSavePathLoop_origin events fileName _ _ _ _ _ _ _ hloop
  have hused : w.isDownloading "" path = true →
      p1.isEmpty = true ∨ some p1 ∈ d.fileDialog := by
    intro hu
    rcases horigin with h | h | h
    · exact Or.inl h
    · exact Or.inr h
    · rw [h.2] at hu; cases hu
  unfold getSavePath
  rw [hloop]
  simp only []
  split_ifs
  · exact ⟨_, _, _, rfl, hfree, hused⟩
  · exact ⟨_, _, _, rfl, hfree, hused⟩

/-- Path resolution on the path as `getSavePath` sees it: `getSavePath` always returns, and
the path it returns is empty or not in use (`isDownloading("", p)` is false, so no
`Running` record of the active set has the target `p`); a candidate path that is in use is
never returned itself: the result then is empty or was selected in the file dialog shown
after the warning.  When `startTransfer` without an explicit target goes on after path
resolution, the path `p` it goes on with is not empty and differs from the target of every
other `Running` record, and the target of the new record is `toNativeSeparators(p)`, which
the check has not seen. -/
theorem getSavePath_rejects_path_in_use (events : TransfersManager → TransfersManager)
    (w : TransfersManager) (d : Dialogs) (fileName path : String) (transfer reply : Nat)
    (quickTransfer : Bool) :
    (∃ w' d' p, getSavePath events w d fileName path = some (w', d', p)
      ∧ (p.isEmpty = true ∨ w'.isDownloading "" p = false)
      ∧ (∀ q ∈ w'.m_transfers, (w'.heap q).state = RunningTransfer →
          p.isEmpty = false → (w'.heap q).target ≠ p)
      ∧ (w.isDownloading "" path = true → p.isEmpty = true ∨ some p ∈ d.fileDialog))
    ∧ (∀ w2 d2, startTransferTarget events w d transfer reply "" quickTransfer
          = some (true, w2, d2) →
        ∃ p, p.isEmpty = false
          ∧ (w2.heap transfer).target = w2.toNativeSeparators p
          ∧ ∀ q ∈ w2.m_transfers, q ≠ transfer → (w2.heap q).state = RunningTransfer →
              (w2.heap q).target ≠ p) := by
  have hnone : ∀ (v : TransfersManager) (p : String), v.isDownloading "" p = false →
      ∀ q ∈ v.m_transfers, (v.heap q).state = RunningTransfer →
        p.isEmpty = false → (v.heap q).target ≠ p := by
    intro v p hfree q hq hrun hp htarget
    have : v.isDownloading "" p = true :=
      (isDownloading_eq_true_iff v "" p).mpr ⟨q, hq, hrun, Or.inr (Or.inl ⟨rfl, by simp [hp], htarget⟩)⟩
    rw [hfree] at this
    cases this
  constructor
  · obtain ⟨w', d', p, hg, hfree, hused⟩ := getSavePath_spec events w d fileName path
    exact ⟨w', d', p, hg, Or.inr hfree, hnone w' p hfree, hused⟩
  · intro w2 d2 h
    unfold startTransferTarget at h
    have hempty : ("" : String).isEmpty = true := rfl
    rw [if_pos hempty] at h
    simp only [] at h
    obtain ⟨w', d', p, hg, hfree, -⟩ := getSavePath_spec events
      (quickPath events w d (w.suggestedFileName transfer reply) quickTransfer).2.1
      (quickPath events w d (w.suggestedFileName transfer reply) quickTransfer).2.2
      (w.suggestedFileName transfer reply)
      (quickPath events w d (w.suggestedFileName transfer reply) quickTransfer).1
    rw [hg] at h
    simp only [] at h
    by_cases hp : p.isEmpty = true
    · rw [if_pos hp] at h
      simp at h
    · rw [if_neg hp] at h
      simp only [Option.some.injEq, Prod.mk.injEq, true_and] at h
      obtain ⟨hw2, -⟩ := h
      have hp2 : p.isEmpty = false := by simpa using hp
      refine ⟨p, hp2, ?_, ?_⟩
      · rw [← hw2]; simp
      · intro q hq hne hrun
        rw [← hw2] at hq hrun ⊢
        rw [modify_heap_ne _ _ _ _ hne] at hrun ⊢
        exact hnone w' p hfree q (by simpa using hq) hrun hp2

/-- Path resolution where `toNativeSeparators` changes nothing: with record `1` running on
`/d/a`, the path `/d/a` picked first in the file dialog is in use and `getSavePath` returns
the alternative `/d/b` picked next; the second `startTransfer` goes on with a path that no
other `Running` record targets. -/
theorem getSavePath_rejects_path_in_use_witness :
    secondStartState.isDownloading "" "/d/a" = true
    ∧ (getSavePath id secondStartState retryDialogs "b" "").map (fun r => r.2.2)
        = some "/d/b"
    ∧ ∃ w2 d2, startTransferTarget id secondStartState retryDialogs 2 8 "" false
          = some (true, w2, d2)
        ∧ ∃ p, p.isEmpty = false
          ∧ (w2.heap 2).target = w2.toNativeSeparators p
          ∧ ∀ q ∈ w2.m_transfers, q ≠ 2 → (w2.heap q).state = RunningTransfer →
              (w2.heap q).target ≠ p :=
  ⟨by decide, by decide, _, _, rfl,
    (getSavePath_rejects_path_in_use id secondStartState retryDialogs "b" "/d/a" 2 8 false).2
      _ _ rfl⟩

/-- Witness for C8: the theorem applied to the running transfer of `overlongState`
(record `1`, mapped to operation `7` only). -/
theorem downloadError_stops_witness :
    (7 ≠ 0 ∧ overlongState.m_replies.contains 7 = true
      ∧ overlongState.m_replies.value 7 = 1
      ∧ (overlongState.heap 1).state = RunningTransfer
      ∧ ∀ b ∈ overlongState.m_replies, b.2 = 1 → b.1 = 7)
    ∧ ((overlongState.downloadError 7 0).heap 1).state = ErrorTransfer
    ∧ ((overlongState.downloadError 7 0).heap 1).finished = overlongState.now
    ∧ ((overlongState.downloadError 7 0).heap 1).device = none
    ∧ (overlongState.downloadError 7 0).m_replies.contains 7 = false
    ∧ (overlongState.downloadError 7 0).m_transfers = overlongState.m_transfers :=
  ⟨⟨by decide, by decide, by decide, by decide, by decide⟩,
    downloadError_stops overlongState 7 1 0 (by decide) (by decide) (by decide) (by decide)⟩

/-! ## Persistence: `save` -/

theorem decimalValue_digitChar (n : Nat) (h : n < 10) : (Nat.digitChar n).toNat - 48 = n := by
  interval_cases n <;> rfl

theorem decimalValue_append (l : List Char) (c : Char) :
    decimalValue (l ++ [c]) = 10 * decimalValue l + (c.toNat - 48) := by
  simp [decimalValue, List.foldl_append]

theorem decimalValue_decimalDigits : ∀ (fuel n : Nat), n < fuel →
    decimalValue (decimalDigits fuel n) = n := by
  intro fuel
  induction fuel with
  | zero => intro n h; omega
  | succ fuel ih =>
    intro n h
    unfold decimalDigits
    by_cases h10 : n < 10
    · rw [if_pos h10]
      simpa [decimalValue] using decimalValue_digitChar n h10
    · rw [if_neg h10, decimalValue_append, ih (n / 10) (by omega),
        decimalValue_digitChar (n % 10) (by omega)]
      omega

/-- Distinct entry numbers give distinct history groups. -/
theorem arg_injective : Function.Injective arg := by
  intro a b h
  unfold arg at h
  have h2 : decimalDigits (a + 1) a = decimalDigits (b + 1) b := by
    injection h
  have h3 := congrArg decimalValue h2
  rwa [decimalValue_decimalDigits _ _ (by omega), decimalValue_decimalDigits _ _ (by omega)] at h3

theorem setValue_new (h : QSettings) (group name : String) (v : QVariant)
    (hnew : ∀ b ∈ h, b.1 ≠ (group, name)) :
    h.setValue group name v = h ++ [((group, name), v)] := by
  unfold QSettings.setValue
  rw [if_neg]
  rw [List.any_eq_true]
  rintro ⟨b, hb, hk⟩
  exact hnew b hb (by simpa using hk)

theorem setValue_six (h : QSettings) (g : String) (v1 v2 v3 v4 v5 v6 : QVariant)
    (hinv : ∀ b ∈ h, b.1.1 ≠ g) :
    (((((h.setValue g "source" v1).setValue g "target" v2).setValue g "started" v3).setValue
        g "finished" v4).setValue g "bytesTotal" v5).setValue g "bytesReceived" v6
      = h ++ [((g, "source"), v1), ((g, "target"), v2), ((g, "started"), v3),
              ((g, "finished"), v4), ((g, "bytesTotal"), v5), ((g, "bytesReceived"), v6)] := by
  have hold : ∀ (n : String), ∀ b ∈ h, b.1 ≠ (g, n) := by
    intro n b hb heq
    exact hinv b hb (by rw [heq])
  rw [setValue_new h g "source" v1 (hold _)]
  rw [setValue_new _ g "target" v2 (by
    intro b hb
    rcases List.mem_append.mp hb with hb | hb
    · exact hold _ b hb
    · simp only [List.mem_singleton] at hb
      subst hb
      simp only [ne_eq, Prod.mk.injEq, true_and]
      decide)]
  rw [setValue_new _ g "started" v3 (by
    intro b hb
    simp only [List.mem_append, List.mem_singleton] at hb
    rcases hb with (hb | hb) | hb
    · exact hold _ b hb
    all_goals (subst hb; simp only [ne_eq, Prod.mk.injEq, true_and]; decide))]
  rw [setValue_new _ g "finished" v4 (by
    intro b hb
    simp only [List.mem_append, List.mem_singleton] at hb
    rcases hb with ((hb | hb) | hb) | hb
    · exact hold _ b hb
    all_goals (subst hb; simp only [ne_eq, Prod.mk.injEq, true_and]; decide))]
  rw [setValue_new _ g "bytesTotal" v5 (by
    intro b hb
    simp only [List.mem_append, List.mem_singleton] at hb
    rcases hb with (((hb | hb) | hb) | hb) | hb
    · exact hold _ b hb
    all_goals (subst hb; simp only [ne_eq, Prod.mk.injEq, true_and]; decide))]
  rw [setValue_new _ g "bytesReceived" v6 (by
    intro b hb
    simp only [List.mem_append, List.mem_singleton] at hb
    rcases hb with ((((hb | hb) | hb) | hb) | hb) | hb
    · exact hold _ b hb
    all_goals (subst hb; simp only [ne_eq, Prod.mk.injEq, true_and]; decide))]
  simp

theorem saveLoop_eq (w : TransfersManager) : ∀ (l : List Nat) (entry : Nat) (h : QSettings),
    (∀ b ∈ h, ∃ j, j < entry ∧ b.1.1 = arg j) →
    saveLoop w w.settings.downloadsLimitPeriod l entry h
      = h ++ ((l.filter (fun p => ! skippedBySave w p)).enumFrom entry).flatMap
          (fun numbered => entryBindings w numbered.1 numbered.2) := by
  intro l
  induction l with
  | nil => intro entry h _; simp [saveLoop]
  | cons p rest ih =>
    intro entry h hinv
    unfold saveLoop
    simp only []
    by_cases hskip : (w.heap p).isPrivate ∨ (w.heap p).isHidden
        ∨ ((w.heap p).state = FinishedTransfer ∧ (w.heap p).finished.isValid
            ∧ (w.heap p).finished.daysTo w.now > w.settings.downloadsLimitPeriod)
    · rw [if_pos hskip, ih entry h hinv]
      have : skippedBySave w p = true := by simp [skippedBySave, hskip]
      simp [List.filter_cons, this]
    · rw [if_neg hskip]
      have hk : skippedBySave w p = false := by
        simp only [skippedBySave, decide_eq_false_iff_not]; exact hskip
      have hne : ∀ b ∈ h, b.1.1 ≠ arg entry := by
        intro b hb heq
        obtain ⟨j, hj, hbj⟩ := hinv b hb
        rw [hbj] at heq
        have := arg_injective heq
        omega
      rw [setValue_six h (arg entry) _ _ _ _ _ _ hne, ih (entry + 1)]
      · simp [List.filter_cons, hk, List.enumFrom_cons, entryBindings]
      · intro b hb
        rcases List.mem_append.mp hb with hb | hb
        · obtain ⟨j, hj, hbj⟩ := hinv b hb
          exact ⟨j, by omega, hbj⟩
        · refine ⟨entry, by omega, ?_⟩
          simp only [List.mem_cons, List.mem_singleton, List.not_mem_nil, or_false] at hb
          rcases hb with hb | hb | hb | hb | hb | hb <;> rw [hb]

/-- C4: after `save` the persisted history is empty when private mode is active or
remember-downloads is disabled; otherwise it is exactly the list of entries of the records
that are neither private nor hidden nor `Finished` with a finished time more than the
retention limit (in days) in the past, one entry each, keyed `1`, `2`, ... in active-set
order; distinct entry numbers are distinct keys. -/
theorem save_history (w : TransfersManager) :
    (w.save).history =
      (if w.settings.privateMode ∨ ¬ w.settings.rememberDownloads then []
        else expectedHistory w)
    ∧ (∀ a b : Nat, arg a = arg b → a = b) := by
  refine ⟨?_, fun a b h => arg_injective h⟩
  unfold save
  simp only []
  by_cases hp : w.settings.privateMode ∨ ¬ w.settings.rememberDownloads
  · rw [if_pos hp, if_pos hp]
    rfl
  · rw [if_neg hp, if_neg hp]
    have h := saveLoop_eq { w with history := w.history.clear } w.m_transfers 1 []
      (by intro b hb; cases hb)
    simp only [List.nil_append] at h
    exact h

/-! ## Restarting and resuming -/

theorem contains_insert (h : ReplyHash) (reply transfer : Nat) :
    (h.insert reply transfer).contains reply = true := by
  simp [ReplyHash.insert, ReplyHash.contains]

theorem value_insert (h : ReplyHash) (reply transfer : Nat) :
    (h.insert reply transfer).value reply = transfer := by
  simp [ReplyHash.insert, ReplyHash.value]

@[simp] theorem readAll_request (w : TransfersManager) (reply : Nat) :
    ((w.readAll reply).2.network reply).request = (w.network reply).request := by
  simp [TransfersManager.readAll, TransfersManager.modifyReply]

theorem downloadDataResume_some (w : TransfersManager) (reply transfer : Nat) (d : QIODevice)
    (hdevice : (w.heap transfer).device = some d) :
    ∃ w1 d1, w.downloadDataResume reply transfer = some w1
      ∧ (w1.heap transfer).device = some d1
      ∧ (w1.heap transfer).state =
          (if (w.heap transfer).state = ErrorTransfer then RunningTransfer
            else (w.heap transfer).state)
      ∧ (w1.heap transfer).bytesStart = (w.heap transfer).bytesStart
      ∧ (w1.heap transfer).bytesReceived = (w.heap transfer).bytesReceived
      ∧ (w1.heap transfer).bytesTotal = (w.heap transfer).bytesTotal
      ∧ (w1.heap transfer).target = (w.heap transfer).target
      ∧ w1.network = w.network
      ∧ w1.m_transfers = w.m_transfers := by
  unfold downloadDataResume
  by_cases hs : (w.heap transfer).state = ErrorTransfer
  · rw [if_pos hs, if_pos hs]
    simp only [modify_network, modify_heap_same, hdevice]
    split_ifs
    · exact ⟨_, { d with pos := 0 }, rfl, by simp, by simp, by simp, by simp, by simp, by simp,
        by simp, by simp⟩
    · exact ⟨_, d, rfl, by simp [hdevice], by simp, by simp, by simp, by simp, by simp,
        by simp, by simp⟩
  · rw [if_neg hs, if_neg hs]
    exact ⟨w, d, rfl, hdevice, rfl, rfl, rfl, rfl, rfl, rfl, rfl⟩

theorem downloadDataWrite_some (w : TransfersManager) (reply transfer : Nat) (d : QIODevice)
    (hdevice : (w.heap transfer).device = some d) :
    ∃ w1, w.downloadDataWrite reply transfer = some w1
      ∧ (w1.heap transfer).state = (w.heap transfer).state
      ∧ (w1.heap transfer).bytesStart = (w.heap transfer).bytesStart
      ∧ (w1.heap transfer).bytesReceived = (w.heap transfer).bytesReceived
      ∧ (w1.heap transfer).bytesTotal = (w.heap transfer).bytesTotal
      ∧ (w1.heap transfer).target = (w.heap transfer).target
      ∧ (w1.network reply).request = (w.network reply).request
      ∧ w1.m_transfers = w.m_transfers := by
  unfold downloadDataWrite
  rw [hdevice]
  exact ⟨_, rfl, by simp, by simp, by simp, by simp, by simp, by simp, by simp⟩

/-- What `downloadData` does to a mapped record that has a sink: it returns, an `Error`
record becomes `Running`, the counters, the target and the request stay as they are. -/
theorem downloadData_mapped (w : TransfersManager) (reply transfer : Nat) (d : QIODevice)
    (hreply : reply ≠ 0) (hmapped : w.m_replies.contains reply = true)
    (hvalue : w.m_replies.value reply = transfer)
    (hdevice : (w.heap transfer).device = some d) :
    ∃ w', w.downloadData reply = some w'
      ∧ (w'.heap transfer).state =
          (if (w.heap transfer).state = ErrorTransfer then RunningTransfer
            else (w.heap transfer).state)
      ∧ (w'.heap transfer).bytesStart = (w.heap transfer).bytesStart
      ∧ (w'.heap transfer).bytesReceived = (w.heap transfer).bytesReceived
      ∧ (w'.heap transfer).bytesTotal = (w.heap transfer).bytesTotal
      ∧ (w'.heap transfer).target = (w.heap transfer).target
      ∧ (w'.network reply).request = (w.network reply).request
      ∧ w'.m_transfers = w.m_transfers := by
  obtain ⟨w1, d1, h1, hd1, hs1, hb1, hr1, ht1, hg1, hn1, hm1⟩ :=
    downloadDataResume_some w reply transfer d hdevice
  obtain ⟨w2, h2, hs2, hb2, hr2, ht2, hg2, hn2, hm2⟩ :=
    downloadDataWrite_some w1 reply transfer d1 hd1
  unfold downloadData
  rw [if_neg (by simp [hreply, hmapped])]
  simp only [hvalue, h1, h2]
  refine ⟨w2, rfl, ?_, ?_, ?_, ?_, ?_, ?_, ?_⟩
  · rw [hs2, hs1]
  · rw [hb2, hb1]
  · rw [hr2, hr1]
  · rw [ht2, ht1]
  · rw [hg2, hg1]
  · rw [hn2, hn1]
  · rw [hm2, hm1]


theorem downloadData_mapped_of_eq (w : TransfersManager) (reply transfer : Nat) (d : QIODevice)
    (r : Option TransfersManager) (h : w.downloadData reply = r)
    (hreply : reply ≠ 0) (hmapped : w.m_replies.contains reply = true)
    (hvalue : w.m_replies.value reply = transfer)
    (hdevice : (w.heap transfer).device = some d) :
    ∃ w', r = some w'
      ∧ (w'.heap transfer).state =
          (if (w.heap transfer).state = ErrorTransfer then RunningTransfer
            else (w.heap transfer).state)
      ∧ (w'.heap transfer).bytesStart = (w.heap transfer).bytesStart
      ∧ (w'.heap transfer).bytesReceived = (w.heap transfer).bytesReceived
      ∧ (w'.heap transfer).bytesTotal = (w.heap transfer).bytesTotal
      ∧ (w'.heap transfer).target = (w.heap transfer).target
      ∧ (w'.network reply).request = (w.network reply).request
      ∧ w'.m_transfers = w.m_transfers := by
  rw [← h]
  exact downloadData_mapped w reply transfer d hreply hmapped hvalue hdevice

@[simp] theorem startUpdates_heap (w : TransfersManager) : (w.startUpdates).heap = w.heap := by
  unfold startUpdates; split_ifs <;> rfl

@[simp] theorem startUpdates_network (w : TransfersManager) :
    (w.startUpdates).network = w.network := by
  unfold startUpdates; split_ifs <;> rfl

@[simp] theorem startUpdates_m_transfers (w : TransfersManager) :
    (w.startUpdates).m_transfers = w.m_transfers := by
  unfold startUpdates; split_ifs <;> rfl

theorem stopTransfer_keeps (w : TransfersManager) (transfer : Nat) :
    ((w.stopTransfer transfer).heap transfer).bytesStart = (w.heap transfer).bytesStart
    ∧ ((w.stopTransfer transfer).heap transfer).bytesReceived = (w.heap transfer).bytesReceived
    ∧ ((w.stopTransfer transfer).heap transfer).bytesTotal = (w.heap transfer).bytesTotal
    ∧ ((w.stopTransfer transfer).heap transfer).target = (w.heap transfer).target
    ∧ ((w.stopTransfer transfer).heap transfer).source = (w.heap transfer).source
    ∧ (w.stopTransfer transfer).canOpen = w.canOpen
    ∧ (w.stopTransfer transfer).files = w.files := by
  unfold stopTransfer
  simp only [notify_heap, modify_heap_same, notify_canOpen, modify_canOpen, notify_files,
    modify_files]
  split_ifs <;> simp_all

/-- What `restartTransfer` does to a record of the active set whose target can be opened:
it returns `true`; the record is `Running` with `bytesStart = 0`, the new request carries
no range header, the target file is empty, and `bytesReceived` and `bytesTotal` are what
they were before the call. -/
theorem restartTransfer_fields (w : TransfersManager) (transfer reply : Nat)
    (issued : QNetworkReply) (htransfer : transfer ≠ 0)
    (hactive : w.m_transfers.contains transfer = true) (hreply : reply ≠ 0)
    (hopen : w.canOpen (w.heap transfer).target = true) :
    ∃ w', w.restartTransfer transfer reply issued = some (true, w')
      ∧ (w'.heap transfer).bytesStart = 0
      ∧ (w'.heap transfer).state = RunningTransfer
      ∧ (w'.heap transfer).bytesReceived = (w.heap transfer).bytesReceived
      ∧ (w'.heap transfer).bytesTotal = (w.heap transfer).bytesTotal
      ∧ (w'.network reply).request.rawHeaders = [] := by
  obtain ⟨hs, -, -, -, -⟩ := stopTransfer_fields w transfer
  obtain ⟨-, hr, hb, ht, -, hc, -⟩ := stopTransfer_keeps w transfer
  unfold restartTransfer
  rw [if_neg (fun h => h.elim htransfer (fun h => h hactive))]
  simp only []
  rw [if_neg (by rw [hc, ht]; simp [hopen])]
  split
  · next heq =>
    obtain ⟨w', hw', -⟩ := downloadData_mapped_of_eq _ reply transfer
      { fileName := ((w.stopTransfer transfer).heap transfer).target, isTemporary := false,
        append := false, pos := 0 } _ heq hreply
      (contains_insert _ _ _) (value_insert _ _ _) (by simp [TransfersManager.get])
    cases hw'
  · next w6 heq =>
    obtain ⟨w', hw', h1, h2, h3, h4, -, h6, -⟩ := downloadData_mapped_of_eq _ reply transfer
      { fileName := ((w.stopTransfer transfer).heap transfer).target, isTemporary := false,
        append := false, pos := 0 } _ heq hreply
      (contains_insert _ _ _) (value_insert _ _ _) (by simp [TransfersManager.get])
    cases hw'
    refine ⟨_, rfl, ?_, ?_, ?_, ?_, ?_⟩
    · rw [startUpdates_heap, h2]; simp [TransfersManager.get]
    · rw [startUpdates_heap, h1]; simp [TransfersManager.get, hs]
    · rw [startUpdates_heap, h3]; simp [TransfersManager.get, hr]
    · rw [startUpdates_heap, h4]; simp [TransfersManager.get, hb]
    · rw [startUpdates_network, h6]; simp [TransfersManager.get]


/-- The two branches of `resumeTransfer` after its guard at line 613, for a record for which
`resumeTransfer` is valid (in the active set, state `Error`, no mapped operation, target
file exists) and whose target can be opened: when `bytesTotal` is exactly `0`,
`resumeTransfer` delegates to `restartTransfer` (same result and state, with
`bytesStart = 0`); for any other `bytesTotal`, negative values included, it performs the
byte-range resume: it returns `true`, the record is `Running`, `bytesStart` is the size of
the target file and the request asks for the range starting at that offset. -/
theorem resumeTransfer_delegates_on_zero_total (w : TransfersManager) (transfer reply : Nat)
    (issued : QNetworkReply) (htransfer : transfer ≠ 0)
    (hactive : w.m_transfers.contains transfer = true)
    (hfree : w.m_replies.key transfer = 0)
    (hstate : (w.heap transfer).state = ErrorTransfer)
    (hexists : w.fileExists (w.heap transfer).target = true)
    (hreply : reply ≠ 0) (hopen : w.canOpen (w.heap transfer).target = true) :
    ((w.heap transfer).bytesTotal = 0 →
      w.resumeTransfer transfer reply issued = w.restartTransfer transfer reply issued
      ∧ ∃ w', w.resumeTransfer transfer reply issued = some (true, w')
        ∧ (w'.heap transfer).bytesStart = 0
        ∧ (w'.heap transfer).state = RunningTransfer
        ∧ (w'.network reply).request.rawHeaders = [])
    ∧ ((w.heap transfer).bytesTotal ≠ 0 →
      ∃ w', w.resumeTransfer transfer reply issued = some (true, w')
        ∧ (w'.heap transfer).bytesStart = (((w.files (w.heap transfer).target).getD []).length : Int)
        ∧ (w'.heap transfer).state = RunningTransfer
        ∧ (w'.network reply).request.rawHeaders =
            [("Range", "bytes=" ++ arg ((w.files (w.heap transfer).target).getD []).length
              ++ "-")]) := by
  have hguard : ¬ (¬ w.m_transfers.contains transfer = true ∨ w.m_replies.key transfer ≠ 0
      ∨ (w.heap transfer).state ≠ ErrorTransfer
      ∨ ¬ w.fileExists (w.heap transfer).target = true) := by
    rintro (h | h | h | h)
    · exact h hactive
    · exact h hfree
    · exact h hstate
    · exact h hexists
  constructor
  · intro hzero
    have heq : w.resumeTransfer transfer reply issued
        = w.restartTransfer transfer reply issued := by
      unfold resumeTransfer
      rw [if_neg hguard, if_pos hzero]
    obtain ⟨w', hw', h1, h2, -, -, h5⟩ :=
      restartTransfer_fields w transfer reply issued htransfer hactive hreply hopen
    exact ⟨heq, w', heq.trans hw', h1, h2, h5⟩
  · intro hne
    unfold resumeTransfer
    rw [if_neg hguard, if_neg hne]
    simp only []
    rw [if_neg (by simp [hopen])]
    split
    · next heq =>
      obtain ⟨w', hw', -⟩ := downloadData_mapped_of_eq _ reply transfer
        { fileName := (w.heap transfer).target, isTemporary := false, append := true,
          pos := ((w.files (w.heap transfer).target).getD []).length } _ heq hreply
        (contains_insert _ _ _) (value_insert _ _ _) (by simp [TransfersManager.get])
      cases hw'
    · next w4 heq =>
      obtain ⟨w', hw', h1, h2, -, -, -, h6, -⟩ := downloadData_mapped_of_eq _ reply transfer
        { fileName := (w.heap transfer).target, isTemporary := false, append := true,
          pos := ((w.files (w.heap transfer).target).getD []).length } _ heq hreply
        (contains_insert _ _ _) (value_insert _ _ _) (by simp [TransfersManager.get])
      cases hw'
      refine ⟨_, rfl, ?_, ?_, ?_⟩
      · rw [startUpdates_heap, h2]; simp [TransfersManager.get]
      · rw [startUpdates_heap, h1]; simp [TransfersManager.get, hstate]
      · rw [startUpdates_network, h6]; simp [TransfersManager.get]

/-- The two branches at concrete records: with `bytesTotal = 0` (`errorZeroState`)
`resumeTransfer` gives what `restartTransfer` gives, with `bytesStart = 0`; with
`bytesTotal = -1` (`errorUnknownState`) it resumes from offset `2`, the size of the file. -/
theorem resumeTransfer_delegates_on_zero_total_witness :
    (1 ≠ 0 ∧ errorZeroState.m_transfers.contains 1 = true
      ∧ errorZeroState.m_replies.key 1 = 0
      ∧ (errorZeroState.heap 1).state = ErrorTransfer
      ∧ errorZeroState.fileExists (errorZeroState.heap 1).target = true
      ∧ 9 ≠ 0 ∧ errorZeroState.canOpen (errorZeroState.heap 1).target = true
      ∧ (errorZeroState.heap 1).bytesTotal = 0)
    ∧ (errorZeroState.resumeTransfer 1 9 pendingReply
          = errorZeroState.restartTransfer 1 9 pendingReply
        ∧ ∃ w', errorZeroState.resumeTransfer 1 9 pendingReply = some (true, w')
          ∧ (w'.heap 1).bytesStart = 0
          ∧ (w'.heap 1).state = RunningTransfer
          ∧ (w'.network 9).request.rawHeaders = [])
    ∧ ∃ w', errorUnknownState.resumeTransfer 1 9 pendingReply = some (true, w')
        ∧ (w'.heap 1).bytesStart =
            (((errorUnknownState.files (errorUnknownState.heap 1).target).getD []).length : Int)
        ∧ (w'.heap 1).state = RunningTransfer
        ∧ (w'.network 9).request.rawHeaders =
            [("Range", "bytes="
              ++ arg ((errorUnknownState.files (errorUnknownState.heap 1).target).getD []).length
              ++ "-")] :=
  ⟨⟨by decide, by decide, by decide, by decide, by decide, by decide, by decide, by decide⟩,
    (resumeTransfer_delegates_on_zero_total errorZeroState 1 9 pendingReply (by decide)
      (by decide) (by decide) (by decide) (by decide) (by decide) (by decide)).1 (by decide),
    (resumeTransfer_delegates_on_zero_total errorUnknownState 1 9 pendingReply (by decide)
      (by decide) (by decide) (by decide) (by decide) (by decide) (by decide)).2 (by decide)⟩

/-! ## The code at the inputs where it departs from the specification -/

set_option maxRecDepth 1000000 in
/-- C3 (the code at the failing input): ten finished, non-private, non-hidden downloads
within the retention window are saved with private mode off and remember-downloads on,
under the keys `1` to `10` in active-set order.  The constructor of a new process reads
the groups in the order `1, 10, 2, ..., 9`, the key order of `childGroups`, so the tenth
saved record is loaded second: the loaded records are not in the saved order.  With the
first nine records alone the order is kept. -/
theorem reload_ten_finished_out_of_order :
    tenFinishedState.settings.privateMode = false
    ∧ tenFinishedState.settings.rememberDownloads = true
    ∧ keptBySave tenFinishedState = tenFinishedState.m_transfers
    ∧ tenFinishedState.m_transfers.map (fun p => (tenFinishedState.heap p).bytesReceived)
        = [1, 2, 3, 4, 5, 6, 7, 8, 9, 10]
    ∧ (tenFinishedState.save.history).childGroups
        = ["1", "10", "2", "3", "4", "5", "6", "7", "8", "9"]
    ∧ (tenFinishedState.save.newProcess.construct).m_transfers.map
          (fun p => ((tenFinishedState.save.newProcess.construct).heap p).bytesReceived)
        = [1, 10, 2, 3, 4, 5, 6, 7, 8, 9]
    ∧ (tenFinishedState.save.newProcess.construct).m_transfers.map
          (fun p => ((tenFinishedState.save.newProcess.construct).heap p).target)
        = ["/d/1", "/d/10", "/d/2", "/d/3", "/d/4", "/d/5", "/d/6", "/d/7", "/d/8", "/d/9"]
    ∧ (nineFinishedState.save.newProcess.construct).m_transfers.map
          (fun p => ((nineFinishedState.save.newProcess.construct).heap p).bytesReceived)
        = [1, 2, 3, 4, 5, 6, 7, 8, 9] := by
  refine ⟨rfl, rfl, ?_, ?_, ?_, ?_, ?_, ?_⟩ <;> rfl

/-- C5 (the code at the failing input): restarting the finished record `1` (three bytes
received, target openable) returns `true`, truncates the file and leaves `bytesStart = 0`
and `state = Running`, but `bytesReceived` keeps its old value `3` instead of `0`; the
first progress report of one byte then yields a byte difference of `-2`. -/
theorem restartTransfer_keeps_bytesReceived :
    (finishedState.heap 1).state = FinishedTransfer
    ∧ finishedState.canOpen (finishedState.heap 1).target = true
    ∧ ∃ w', finishedState.restartTransfer 1 9 pendingReply = some (true, w')
      ∧ (w'.heap 1).bytesStart = 0
      ∧ (w'.heap 1).state = RunningTransfer
      ∧ w'.files "/d/a" = some []
      ∧ (w'.heap 1).bytesReceived = 3
      ∧ ((w'.downloadProgress 9 1 3).heap 1).bytesReceivedDifference = -2 :=
  ⟨by decide, by decide, _, rfl, by decide, by decide, by decide, by decide, by decide⟩

/-- C6 (the code at the failing input): record `1` is valid for `resumeTransfer` and its
`bytesTotal` is `-1`, an unknown length.  `resumeTransfer` does not delegate: it performs a
byte-range resume (`bytesStart = 2`, header `Range: bytes=2-`, file kept), whereas
`restartTransfer` on the same record gives `bytesStart = 0`, no range header and a
truncated file.  When the server then answers with status `200` and the full body of five
bytes, the resumed transfer ends `Finished` with seven bytes on disk (the two old bytes
followed by the body), where the restarted one ends `Finished` with the five bytes of the
body.  With `bytesTotal = 0` (`errorZeroState`) `resumeTransfer` does delegate. -/
theorem resumeTransfer_negative_total_resumes :
    (errorUnknownState.heap 1).state = ErrorTransfer
    ∧ errorUnknownState.m_transfers.contains 1 = true
    ∧ errorUnknownState.m_replies.key 1 = 0
    ∧ errorUnknownState.fileExists (errorUnknownState.heap 1).target = true
    ∧ (errorUnknownState.heap 1).bytesTotal = -1
    ∧ (∃ w1, errorUnknownState.resumeTransfer 1 9 pendingReply = some (true, w1)
        ∧ (w1.heap 1).bytesStart = 2
        ∧ (w1.network 9).request.rawHeaders = [("Range", "bytes=2-")]
        ∧ w1.files "/d/a" = some [10, 20]
        ∧ ∃ w2, (fullResponse w1 9).downloadFinished 9 = some w2
          ∧ w2.files "/d/a" = some [10, 20, 1, 2, 3, 4, 5]
          ∧ (w2.heap 1).state = FinishedTransfer
          ∧ (w2.heap 1).bytesReceived = 7)
    ∧ (∃ w1, errorUnknownState.restartTransfer 1 9 pendingReply = some (true, w1)
        ∧ (w1.heap 1).bytesStart = 0
        ∧ (w1.network 9).request.rawHeaders = []
        ∧ w1.files "/d/a" = some []
        ∧ ∃ w2, (fullResponse w1 9).downloadFinished 9 = some w2
          ∧ w2.files "/d/a" = some [1, 2, 3, 4, 5]
          ∧ (w2.heap 1).state = FinishedTransfer
          ∧ (w2.heap 1).bytesReceived = 5)
    ∧ errorUnknownState.resumeTransfer 1 9 pendingReply
        ≠ errorUnknownState.restartTransfer 1 9 pendingReply
    ∧ (errorZeroState.heap 1).bytesTotal = 0
    ∧ errorZeroState.resumeTransfer 1 9 pendingReply
        = errorZeroState.restartTransfer 1 9 pendingReply := by
  refine ⟨by decide, by decide, by decide, by decide, by decide,
    ⟨_, rfl, by decide, by decide, by decide, _, rfl, by decide, by decide, by decide⟩,
    ⟨_, rfl, by decide, by decide, by decide, _, rfl, by decide, by decide, by decide⟩,
    ?_, by decide, rfl⟩
  intro h
  have h2 := congrArg (fun r => r.map (fun x => (x.2.heap 1).bytesStart)) h
  revert h2
  decide

/-- C7 (the code at the failing input): resuming record `1` (two of five bytes on disk)
sets `bytesStart = 2` and requests `Range: bytes=2-`.  When the response then carries
status `200` with the full body, `downloadData` keeps `bytesStart = 2` and appends the
body to the two old bytes, and the next progress report counts from offset `2`
(`bytesReceived = bytesTotal = 7`); the same holds when the response is already there
when `resumeTransfer` calls `downloadData`. -/
theorem resumeTransfer_full_response_keeps_offset :
    (errorKnownState.heap 1).state = ErrorTransfer
    ∧ (errorKnownState.heap 1).bytesTotal = 5
    ∧ errorKnownState.files "/d/a" = some [10, 20]
    ∧ (∃ w1, errorKnownState.resumeTransfer 1 9 pendingReply = some (true, w1)
        ∧ (w1.heap 1).bytesStart = 2
        ∧ (w1.network 9).request.rawHeaders = [("Range", "bytes=2-")]
        ∧ ∃ w2, (fullResponse w1 9).downloadData 9 = some w2
          ∧ (w2.heap 1).bytesStart = 2
          ∧ w2.files "/d/a" = some [10, 20, 1, 2, 3, 4, 5]
          ∧ ((w2.downloadProgress 9 5 5).heap 1).bytesReceived = 7
          ∧ ((w2.downloadProgress 9 5 5).heap 1).bytesTotal = 7)
    ∧ (∃ w3, errorKnownState.resumeTransfer 1 9
          { pendingReply with httpStatusCode := some 200, pending := [1, 2, 3, 4, 5] }
          = some (true, w3)
        ∧ (w3.heap 1).bytesStart = 2
        ∧ w3.files "/d/a" = some [10, 20, 1, 2, 3, 4, 5]) :=
  ⟨by decide, by decide, by decide,
    ⟨_, rfl, by decide, by decide, _, rfl, by decide, by decide, by decide, by decide⟩,
    ⟨_, rfl, by decide, by decide⟩⟩

/-- C9 (the code at the failing input): in `sharedTargetState` only record `2` is
`Running`, so no two `Running` records share a target; `restartTransfer` on the finished
record `1`, whose target is the same path, makes it `Running` too.  Likewise
`startTransfer` with the explicit target `/d/a`, confirmed in the overwrite question,
creates a second `Running` record on the target of the running record `1`. -/
theorem restartTransfer_shares_running_target :
    NoSharedRunningTarget sharedTargetState
    ∧ (∃ w', sharedTargetState.restartTransfer 1 9 pendingReply = some (true, w')
        ∧ (w'.heap 1).state = RunningTransfer
        ∧ (w'.heap 2).state = RunningTransfer
        ∧ (w'.heap 1).target = (w'.heap 2).target
        ∧ ¬ NoSharedRunningTarget w')
    ∧ NoSharedRunningTarget overlongState
    ∧ (∃ w' d', startTransfer id overlongState { fileDialog := [], messageBox := [true] } 8
          "/d/a" false false false "/tmp/otter-download-1.dat" = some (2, w', d')
        ∧ (w'.heap 1).state = RunningTransfer
        ∧ (w'.heap 2).state = RunningTransfer
        ∧ (w'.heap 1).target = (w'.heap 2).target
        ∧ ¬ NoSharedRunningTarget w') :=
  ⟨by decide, ⟨_, rfl, by decide, by decide, by decide, by decide⟩, by decide,
    ⟨_, _, rfl, by decide, by decide, by decide, by decide⟩⟩

/-- C10 (the code at the failing input): on a platform whose native separator is the
backslash, a first `startTransfer` without an explicit target, for which the user picks
`C:/d/a` in the file dialog, leaves record `1` `Running` with the target `C:\d\a`.  For
that state `isDownloading` is true for `C:\d\a` and false for `C:/d/a`, the form in which
`getSavePath` tests the path.  A second `startTransfer` for which the user picks `C:/d/a`
again is therefore not rejected: no warning is shown (the prepared answer is still
unused), no alternative is asked for, and the call returns record `2`, `Running` with the
same target `C:\d\a` as the `Running` record `1`. -/
theorem startTransfer_twice_shares_native_target :
    ∃ w1 d1, startTransfer id backslashState sameChoiceDialogs 7 "" false false false
        "/tmp/otter-download-1.dat" = some (1, w1, d1)
      ∧ (w1.heap 1).state = RunningTransfer
      ∧ (w1.heap 1).target = "C:\\d\\a"
      ∧ NoSharedRunningTarget w1
      ∧ w1.isDownloading "" "C:\\d\\a" = true
      ∧ w1.isDownloading "" "C:/d/a" = false
      ∧ d1.fileDialog = [some "C:/d/a"]
      ∧ ∃ w2 d2, startTransfer id w1 d1 8 "" false false false
          "/tmp/otter-download-2.dat" = some (2, w2, d2)
        ∧ d2.fileDialog = [] ∧ d2.messageBox = [true]
        ∧ w2.m_transfers = [1, 2]
        ∧ (w2.heap 1).state = RunningTransfer
        ∧ (w2.heap 2).state = RunningTransfer
        ∧ (w2.heap 2).target = "C:\\d\\a"
        ∧ (w2.heap 1).target = (w2.heap 2).target
        ∧ ¬ NoSharedRunningTarget w2 :=
  ⟨_, _, rfl, by decide, by decide, by decide, by decide, by decide, by decide, _, _, rfl,
    by decide, by decide, by decide, by decide, by decide, by decide, by decide, by decide⟩

/-! ## Byte counters after the streaming callbacks -/

/-- After `downloadProgress` with a non-negative `bytesReceived` argument the mapped record
has `bytesReceived >= bytesStart`; `bytesStart` and the other records are unchanged. -/
theorem downloadProgress_reaches_start (w : TransfersManager) (reply transfer : Nat)
    (received total : Int) (hreply : reply ≠ 0) (hmapped : w.m_replies.contains reply = true)
    (hvalue : w.m_replies.value reply = transfer) (hreceived : 0 ≤ received) :
    ((w.downloadProgress reply received total).heap transfer).bytesStart
        ≤ ((w.downloadProgress reply received total).heap transfer).bytesReceived
    ∧ ((w.downloadProgress reply received total).heap transfer).bytesStart
        = (w.heap transfer).bytesStart
    ∧ ∀ p, p ≠ transfer → (w.downloadProgress reply received total).heap p = w.heap p := by
  unfold downloadProgress
  rw [if_neg (by simp [hreply, hmapped]), hvalue]
  simp only [modify_heap_same]
  refine ⟨by omega, trivial, ?_⟩
  intro p hp
  rw [modify_heap_ne _ _ _ _ hp, modify_heap_ne _ _ _ _ hp, modify_heap_ne _ _ _ _ hp]

/-- C11 (the code at the failing input): record `1` is in state `Error` with
`bytesReceived = 1` and two bytes on disk, so `bytesReceived >= bytesStart = 0` holds.
`resumeTransfer` sets `bytesStart = 2` and leaves `bytesReceived = 1`; after the next
`downloadData` callback (status `206`, one more byte written) the record still has
`bytesReceived = 1 < 2 = bytesStart`.  The first progress report of one byte then adds
`2` to the byte difference; only after it `bytesReceived >= bytesStart` holds again. -/
theorem downloadData_after_resume_below_start :
    (laggingState.heap 1).state = ErrorTransfer
    ∧ (laggingState.heap 1).bytesStart ≤ (laggingState.heap 1).bytesReceived
    ∧ ∃ w1, laggingState.resumeTransfer 1 9 pendingReply = some (true, w1)
      ∧ (w1.heap 1).bytesStart = 2
      ∧ (w1.heap 1).bytesReceived = 1
      ∧ ∃ w2, (partialResponse w1 9).downloadData 9 = some w2
        ∧ w2.files "/d/a" = some [10, 20, 30]
        ∧ (w2.heap 1).bytesStart = 2
        ∧ (w2.heap 1).bytesReceived = 1
        ∧ (w2.heap 1).bytesReceived < (w2.heap 1).bytesStart
        ∧ ((w2.downloadProgress 9 1 3).heap 1).bytesReceivedDifference = 2
        ∧ ((w2.downloadProgress 9 1 3).heap 1).bytesReceived = 3 :=
  ⟨by decide, by decide, _, rfl, by decide, by decide, _, rfl, by decide, by decide, by decide,
    by decide, by decide, by decide⟩

/-! ## File names: `suggestedFileName` -/

/-- Lines 394 to 408 of `startTransfer` on the derived name: a name without an extension
gets the preferred suffix of the record's MIME type, when the response has a valid
`Content-Type` header and that suffix is not empty. -/
theorem suggestedFileName_eq (w : TransfersManager) (transfer reply : Nat) :
    w.suggestedFileName transfer reply =
      (if (suffix (derivedFileName w transfer reply)).isEmpty = true
          ∧ ((w.network reply).contentType).isSome = true
          ∧ (w.heap transfer).mimeType.preferredSuffix.isEmpty = false
        then derivedFileName w transfer reply ++ "." ++ (w.heap transfer).mimeType.preferredSuffix
        else derivedFileName w transfer reply) := by
  have hshape : w.suggestedFileName transfer reply =
      (if (suffix (derivedFileName w transfer reply)).isEmpty = true then
        (if ¬ (if ((w.network reply).contentType).isSome = true
                then (w.heap transfer).mimeType.preferredSuffix else "").isEmpty = true
          then derivedFileName w transfer reply ++ "."
            ++ (if ((w.network reply).contentType).isSome = true
                then (w.heap transfer).mimeType.preferredSuffix else "")
          else derivedFileName w transfer reply)
        else derivedFileName w transfer reply) := rfl
  rw [hshape]
  generalize derivedFileName w transfer reply = name
  have hempty : ("" : String).isEmpty = true := rfl
  by_cases h1 : (suffix name).isEmpty = true
  · rw [if_pos h1]
    by_cases h2 : ((w.network reply).contentType).isSome = true
    · rw [if_pos h2]
      by_cases h3 : (w.heap transfer).mimeType.preferredSuffix.isEmpty = true
      · rw [if_neg (fun h => h h3), if_neg (fun h => by rw [h3] at h; exact absurd h.2.2 (by simp))]
      · rw [if_pos h3, if_pos ⟨h1, h2, by simpa using h3⟩]
    · rw [if_neg h2, if_neg (fun h => h hempty), if_neg (fun h => h2 h.2.1)]
  · rw [if_neg h1, if_neg (fun h => h1 h.1)]


theorem derivedFileName_of_url (w : TransfersManager) (transfer reply : Nat)
    (hdisp : (w.network reply).contentDisposition = none)
    (hname : (w.urlFileName (w.heap transfer).source).isEmpty = false) :
    derivedFileName w transfer reply = w.urlFileName (w.heap transfer).source := by
  have hempty : ("" : String).isEmpty = true := rfl
  unfold derivedFileName
  simp only [hdisp]
  rw [if_pos hempty, if_neg (by simp [hname])]

theorem lastSegment_fold (name : List Char) (hslash : '/' ∉ name) : ∀ acc : List Char,
    name.foldl (fun acc c => if c = '/' then [] else acc ++ [c]) acc = acc ++ name := by
  induction name with
  | nil => intro acc; simp
  | cons c rest ih =>
    intro acc
    have hc : c ≠ '/' := fun h => hslash (by simp [h])
    have hrest : '/' ∉ rest := fun h => hslash (List.mem_cons_of_mem _ h)
    simp only [List.foldl_cons, if_neg hc, ih hrest]
    simp

/-- The last segment of a path that ends in `/name`, where `name` has no `/`, is `name`. -/
theorem lastSegment_of_path (dir name : List Char) (hslash : '/' ∉ name) :
    lastSegment (dir ++ '/' :: name) = name := by
  unfold lastSegment
  rw [List.foldl_append, List.foldl_cons, if_pos rfl, lastSegment_fold name hslash]
  rfl

theorem lastSegment_self (name : List Char) (hslash : '/' ∉ name) :
    lastSegment name = name := by
  unfold lastSegment
  rw [lastSegment_fold name hslash]
  rfl

theorem afterLastDot_none (name : List Char) (hdot : '.' ∉ name) : afterLastDot name = none := by
  unfold afterLastDot
  induction name with
  | nil => rfl
  | cons c rest ih =>
    have hc : c ≠ '.' := fun h => hdot (by simp [h])
    have hrest : '.' ∉ rest := fun h => hdot (List.mem_cons_of_mem _ h)
    simp only [List.foldl_cons, if_neg hc, Option.map_none']
    exact ih hrest

/-- A name without `/` and without `.` has no extension. -/
theorem suffix_of_plain_name (name : List Char) (hslash : '/' ∉ name) (hdot : '.' ∉ name) :
    suffix (String.mk name) = "" := by
  unfold suffix
  rw [lastSegment_self name hslash, afterLastDot_none name hdot]
  rfl

/-- Lines 394 to 408 of `startTransfer`, given the MIME type the record holds at that
point: for a response with no `Content-Disposition` header whose URL's last path segment
is a non-empty name without an extension, and a record whose MIME type has the non-empty
preferred suffix `s`: when the response has a valid `Content-Type` header the suggested
file name is that name followed by `.` and `s`; when it has none the suggested file name
is the name itself.  In general the suffix is appended whenever the derived name has no
extension, the response has a valid `Content-Type` header and the preferred suffix is not
empty. -/
theorem suggestedFileName_appends_suffix (w : TransfersManager) (transfer reply : Nat)
    (s : String)
    (hdisp : (w.network reply).contentDisposition = none)
    (hname : (w.urlFileName (w.heap transfer).source).isEmpty = false)
    (hext : (suffix (w.urlFileName (w.heap transfer).source)).isEmpty = true)
    (hsniffed : (w.heap transfer).mimeType.preferredSuffix = s)
    (hs : s.isEmpty = false) :
    (((w.network reply).contentType).isSome = true →
      w.suggestedFileName transfer reply = w.urlFileName (w.heap transfer).source ++ "." ++ s)
    ∧ (((w.network reply).contentType).isSome = false →
      w.suggestedFileName transfer reply = w.urlFileName (w.heap transfer).source)
    ∧ (∀ (v : TransfersManager) (t r : Nat),
        (suffix (derivedFileName v t r)).isEmpty = true →
        ((v.network r).contentType).isSome = true →
        (v.heap t).mimeType.preferredSuffix.isEmpty = false →
        v.suggestedFileName t r
          = derivedFileName v t r ++ "." ++ (v.heap t).mimeType.preferredSuffix) := by
  have hderived := derivedFileName_of_url w transfer reply hdisp hname
  refine ⟨?_, ?_, ?_⟩
  · intro htype
    rw [suggestedFileName_eq, hderived, hsniffed, if_pos ⟨hext, htype, hs⟩]
  · intro htype
    rw [suggestedFileName_eq, hderived, if_neg]
    intro h
    rw [htype] at h
    exact absurd h.2.1 (by simp)
  · intro v t r h1 h2 h3
    rw [suggestedFileName_eq, if_pos ⟨h1, h2, h3⟩]

/-! ## MIME sniffing in `startTransfer` -/

/-- `downloadData` for an operation that is not mapped returns at once (line 142). -/
theorem downloadData_unmapped (w : TransfersManager) (reply : Nat)
    (hfresh : w.m_replies.contains reply = false) : w.downloadData reply = some w := by
  unfold downloadData
  rw [if_pos (Or.inr (by simp [hfresh]))]

theorem downloadData_unmapped_of_eq (w : TransfersManager) (reply : Nat)
    (r : Option TransfersManager) (h : w.downloadData reply = r)
    (hfresh : w.m_replies.contains reply = false) : r = some w := by
  rw [← h]; exact downloadData_unmapped w reply hfresh

theorem modify_mimeType (v : TransfersManager) (transfer p : Nat)
    (f : TransferInformation → TransferInformation) (hf : ∀ t, (f t).mimeType = t.mimeType) :
    ((v.modify transfer f).heap p).mimeType = (v.heap p).mimeType := by
  by_cases hp : p = transfer
  · subst hp; rw [modify_heap_same]; exact hf _
  · rw [modify_heap_ne _ _ _ _ hp]

theorem downloadDataResume_mimeType (w : TransfersManager) (reply transfer : Nat)
    (w1 : TransfersManager) (h : w.downloadDataResume reply transfer = some w1) (p : Nat) :
    (w1.heap p).mimeType = (w.heap p).mimeType := by
  unfold downloadDataResume at h
  simp only [] at h
  split_ifs at h
  · split at h
    · cases h
    · cases h
      rw [modify_mimeType, modify_mimeType]
      all_goals (intro t; rfl)
  · cases h
    rw [modify_mimeType]
    intro t; rfl
  · cases h; rfl

theorem downloadDataWrite_mimeType (w : TransfersManager) (reply transfer : Nat)
    (w1 : TransfersManager) (h : w.downloadDataWrite reply transfer = some w1) (p : Nat) :
    (w1.heap p).mimeType = (w.heap p).mimeType := by
  unfold downloadDataWrite at h
  split at h
  · cases h
  · cases h
    by_cases hp : p = transfer
    · subst hp; simp
    · rw [write_heap_ne _ _ _ _ _ hp]; simp

/-- `downloadData` does not touch the MIME type of any record. -/
theorem downloadData_mimeType (w : TransfersManager) (reply : Nat) (w1 : TransfersManager)
    (h : w.downloadData reply = some w1) (p : Nat) :
    (w1.heap p).mimeType = (w.heap p).mimeType := by
  unfold downloadData at h
  split_ifs at h
  · cases h; rfl
  · simp only [] at h
    split at h
    · cases h
    · next w0 h0 =>
      rw [downloadDataWrite_mimeType _ _ _ _ h p, downloadDataResume_mimeType _ _ _ _ h0 p]

theorem downloadData_ne_none_of_eq (w : TransfersManager) (reply transfer : Nat)
    (r : Option TransfersManager) (h : w.downloadData reply = r)
    (hreply : reply ≠ 0) (hmapped : w.m_replies.contains reply = true)
    (hvalue : w.m_replies.value reply = transfer)
    (hdevice : ((w.heap transfer).device).isSome = true) : r ≠ none := by
  obtain ⟨d, hd⟩ := Option.isSome_iff_exists.mp hdevice
  obtain ⟨w', hw', -⟩ := downloadData_mapped_of_eq w reply transfer d r h hreply hmapped hvalue hd
  rw [hw']
  simp

/-- Lines 311 to 368 of `startTransfer` for an operation that is not mapped yet (the
transport has just handed it out) and a scratch file that can be opened: the function goes
on, and the MIME type it leaves in the new record is what the MIME database reports for
empty data, whatever bytes the response has delivered.  So when that type has no suffix,
the suggested file name is the derived name, with nothing appended. -/
theorem startTransferBegin_sniffs_empty (w : TransfersManager) (reply : Nat)
    (privateTransfer skipTransfers : Bool) (temporaryName : String)
    (hreply : reply ≠ 0)
    (hfresh : w.m_replies.contains reply = false)
    (hopen : w.canOpen temporaryName = true) :
    ∃ w', w.startTransferBegin reply privateTransfer skipTransfers temporaryName
        = some (true, w.nextTransfer, w')
      ∧ (w'.heap w.nextTransfer).mimeType = w.mimeTypeForData []
      ∧ ((w.mimeTypeForData []).preferredSuffix.isEmpty = true →
          w'.suggestedFileName w.nextTransfer reply
            = derivedFileName w' w.nextTransfer reply) := by
  have hname : ∀ w' : TransfersManager,
      (w'.heap w.nextTransfer).mimeType = w.mimeTypeForData [] →
      (w.mimeTypeForData []).preferredSuffix.isEmpty = true →
        w'.suggestedFileName w.nextTransfer reply
          = derivedFileName w' w.nextTransfer reply := by
    intro w' hmime hsuffix
    rw [suggestedFileName_eq, if_neg]
    intro hcond
    rw [hmime, hsuffix] at hcond
    exact absurd hcond.2.2 (by simp)
  unfold startTransferBegin
  simp only []
  rw [if_neg (by simp [hopen])]
  split
  · next heq =>
    have := downloadData_unmapped_of_eq _ _ _ heq hfresh
    cases this
  · next w4 heq =>
    have h4 := downloadData_unmapped_of_eq _ _ _ heq hfresh
    simp only [Option.some.injEq] at h4
    subst h4
    clear heq
    cases hfin : (w.network reply).isFinished
    · split
      · next hdev =>
        simp [hfin, TransfersManager.modify] at hdev
      · next dev hdev =>
        split
        · next heq2 =>
          exact absurd rfl (downloadData_ne_none_of_eq _ reply w.nextTransfer _ heq2 hreply
            (by simp [hfin, TransfersManager.modify, contains_insert])
            (by simp [hfin, TransfersManager.modify, value_insert])
            (by simp [hfin, TransfersManager.modify]))
        · next w8 heq2 =>
          have hmime : (w8.heap w.nextTransfer).mimeType = w.mimeTypeForData [] := by
            rw [downloadData_mimeType _ _ _ heq2]
            simp [hfin, TransfersManager.modify] at hdev
            simp [hfin, TransfersManager.modify, ← hdev]
          exact ⟨w8, rfl, hmime, hname w8 hmime⟩
    · split
      · next hdev =>
        simp [hfin, TransfersManager.modify] at hdev
      · next dev hdev =>
        split
        · next heq2 =>
          have := downloadData_unmapped_of_eq _ _ _ heq2
            (by simpa [hfin, TransfersManager.modify] using hfresh)
          cases this
        · next w8 heq2 =>
          have hmime : (w8.heap w.nextTransfer).mimeType = w.mimeTypeForData [] := by
            rw [downloadData_mimeType _ _ _ heq2]
            simp [hfin, TransfersManager.modify] at hdev
            simp [hfin, TransfersManager.modify, ← hdev]
          exact ⟨w8, rfl, hmime, hname w8 hmime⟩

/-- C12 (the code at the failing input): the response has no `Content-Disposition`
header, the header `Content-Type: application/pdf`, the URL path `/files/report`, whose
last segment `report` has no extension, and its first bytes sniff as PDF (preferred suffix
`pdf`).  When `startTransfer` sniffs, the scratch file is still empty: the `downloadData`
call before it returns at once, the operation not being mapped yet, and the bytes are
written by the call after it.  The record's MIME type becomes the zero-size type, which has
no suffix, the suggested file name is `report`, not `report.pdf`, and the download is saved
as `report` in the downloads directory. -/
theorem startTransfer_sniffs_empty_scratch_file :
    (pdfReportState.network 9).contentDisposition = none
    ∧ (pdfReportState.network 9).contentType = some "application/pdf"
    ∧ pdfReportState.urlFileName (pdfReportState.network 9).url = "report"
    ∧ suffix "report" = ""
    ∧ (pdfReportState.mimeTypeForData (pdfReportState.network 9).pending).preferredSuffix
        = "pdf"
    ∧ (∃ w1, pdfReportState.startTransferBegin 9 false false "/tmp/otter-download-1.dat"
          = some (true, 1, w1)
        ∧ w1.files "/tmp/otter-download-1.dat" = some [37, 80, 68, 70]
        ∧ (w1.heap 1).mimeType = zeroSizeType
        ∧ w1.suggestedFileName 1 9 = "report"
        ∧ w1.suggestedFileName 1 9 ≠ "report.pdf")
    ∧ ∃ w' d', startTransfer id pdfReportState { fileDialog := [], messageBox := [] } 9 ""
          false false false "/tmp/otter-download-1.dat" = some (1, w', d')
        ∧ (w'.heap 1).state = RunningTransfer
        ∧ (w'.heap 1).target = "/home/u/Downloads/report"
        ∧ w'.files "/home/u/Downloads/report" = some [37, 80, 68, 70] :=
  ⟨by decide, by decide, by decide, by decide, by decide,
    ⟨_, rfl, by decide, by decide, by decide, by decide⟩,
    ⟨_, _, rfl, by decide, by decide, by decide⟩⟩

end Otter
